import Mathlib

/-!
Verification development for the credonbrasil serverless backend
(`credonbrasil/handler.js`).  The definitions below are a shallow embedding
of the data-access layer (`withRetries`, `queryWithTimeout`), the field
normalizers (`normalizeMoney`, `normalizeBool`, enum allow-lists,
`processBase64Documents`) and the stateful handlers (`preCadastro`,
`adminUpdatePreCadastroStatus`, `adminTransformarParceiro`,
`adminListParceiros`, `adminGetParceiro`, `criarOperacao`,
`atualizarOperacao`).  JavaScript numbers are modelled by `ℚ` (with a
separate constructor for the non-finite values), strings by `String`,
`null`/`undefined` by `Option.none`, and the MySQL tables by Lean lists.
-/

namespace Credon

/-! ## JavaScript value model and string helpers -/

/-- A loosely-typed JavaScript value as it arrives in a JSON request body.
`num` is a finite number; `nan` models the non-finite numbers (`NaN` and
`±Infinity`, all of which fail the `isFinite` test and whose string forms
contain no digits, so they behave identically in every code path modelled
here). -/
inductive JVal where
  | num (q : ℚ)
  | nan
  | str (s : String)
  | jsBool (b : Bool)
deriving DecidableEq, Repr

/-- JavaScript string coercion of an optional string (`v || ''`). -/
def jsStr (o : Option String) : String :=
  match o with
  | some s => s
  | none => ""

/-- JavaScript truthiness of an optional string: `null`, `undefined` and
the empty string are falsy. -/
def jsTruthyStr (o : Option String) : Bool :=
  match o with
  | some s => s ≠ ""
  | none => false

/-- The coercion `v || default` for an optional string. -/
def jsStrD (o : Option String) (d : String) : String :=
  if jsTruthyStr o then jsStr o else d

/-- JavaScript truthiness of an optional numeric id: `null`, `undefined`
and `0` are falsy. -/
def jsTruthyNat (o : Option ℕ) : Bool :=
  match o with
  | some n => n ≠ 0
  | none => false

/-- JavaScript truthiness of a loosely-typed value (`NaN`, `0`, the empty string and
`false` are falsy). -/
def jsTruthyVal (v : JVal) : Bool :=
  match v with
  | .num q => q ≠ 0
  | .nan => false
  | .str s => s ≠ ""
  | .jsBool b => b

/-- Truthiness of an optional loosely-typed value. -/
def jsTruthyOpt (o : Option JVal) : Bool :=
  match o with
  | some v => jsTruthyVal v
  | none => false

/-- ASCII lower-casing of a character, plus the one non-ASCII letter the
source compares after lower-casing (`não`). -/
def jsLowerChar (c : Char) : Char :=
  if 'A' ≤ c ∧ c ≤ 'Z' then Char.ofNat (c.toNat + 32)
  else if c = 'Ã' then 'ã'
  else c

/-- Model of `String.prototype.toLowerCase()` restricted to the alphabet used by the
source. -/
def jsLower (s : String) : String :=
  String.mk (s.data.map jsLowerChar)

/-- ASCII upper-casing of a character. -/
def asciiUpper (c : Char) : Char :=
  if 'a' ≤ c ∧ c ≤ 'z' then Char.ofNat (c.toNat - 32) else c

/-- Characters removed by `String.prototype.trim()` (and skipped by
`parseFloat`). -/
def jsWhitespaceChar (c : Char) : Bool :=
  c = ' ' || c = '\t' || c = '\n' || c = '\r'

/-- Model of `String.prototype.trim()`: drop whitespace from both ends. -/
def jsTrim (s : String) : String :=
  String.mk (((s.data.dropWhile jsWhitespaceChar).reverse.dropWhile
    jsWhitespaceChar).reverse)

/-- Does `pat` occur at the head of `l`? -/
def startsWithChars : List Char → List Char → Bool
  | [], _ => true
  | _ :: _, [] => false
  | a :: as, b :: bs => a = b && startsWithChars as bs

/-- Does `needle` occur as a contiguous run inside `hay`?  (Regex substring
search.) -/
def occursIn (needle : List Char) : List Char → Bool
  | [] => startsWithChars needle []
  | c :: rest => startsWithChars needle (c :: rest) || occursIn needle rest

/-- Case-insensitive substring test, as performed by a `/pat/i.test(s)`
regex alternative. -/
def containsCI (hay needle : String) : Bool :=
  occursIn (needle.data.map jsLowerChar) (hay.data.map jsLowerChar)

/-! ## parseFloat model

`parseFloat` skips leading whitespace, accepts an optional sign, a digit
run, an optional fractional part and an optional exponent, and stops at the
first character that cannot extend the number; it yields `NaN` (here
`Option.none`) when no digit was consumed. -/

/-- Numeric value of a digit run. -/
def digitsVal (l : List Char) : ℕ :=
  l.foldl (fun a c => a * 10 + (c.toNat - 48)) 0

/-- Parse an unsigned mantissa (`digits`, `digits.digits` or `.digits`);
returns the value and the unconsumed remainder. -/
def parseMantissa (l : List Char) : Option (ℚ × List Char) :=
  let ip := l.takeWhile Char.isDigit
  let r1 := l.drop ip.length
  match r1 with
  | '.' :: r2 =>
    let fp := r2.takeWhile Char.isDigit
    if ip.isEmpty && fp.isEmpty then none
    else some ((digitsVal ip : ℚ) + (digitsVal fp : ℚ) / (10 : ℚ) ^ fp.length,
               r2.drop fp.length)
  | _ =>
    if ip.isEmpty then none else some ((digitsVal ip : ℚ), r1)

/-- Apply a trailing exponent part (`e±digits`), if present, to a parsed
mantissa; an exponent with no digits is ignored, as in JavaScript. -/
def applyExponentSigned (q : ℚ) (l : List Char) : ℚ :=
  match l with
  | '-' :: ds =>
    let e := ds.takeWhile Char.isDigit
    if e.isEmpty then q else q / (10 : ℚ) ^ digitsVal e
  | '+' :: ds =>
    let e := ds.takeWhile Char.isDigit
    if e.isEmpty then q else q * (10 : ℚ) ^ digitsVal e
  | ds =>
    let e := ds.takeWhile Char.isDigit
    if e.isEmpty then q else q * (10 : ℚ) ^ digitsVal e

/-- Exponent dispatch: applies only when the remainder starts with `e`/`E`. -/
def applyExponent (q : ℚ) (l : List Char) : ℚ :=
  match l with
  | 'e' :: rest => applyExponentSigned q rest
  | 'E' :: rest => applyExponentSigned q rest
  | _ => q

/-- The `parseFloat` model on a character list. -/
def parseFloatChars (l0 : List Char) : Option ℚ :=
  let l := l0.dropWhile jsWhitespaceChar
  match l with
  | '-' :: r => (parseMantissa r).map (fun p => - applyExponent p.1 p.2)
  | '+' :: r => (parseMantissa r).map (fun p => applyExponent p.1 p.2)
  | _ => (parseMantissa l).map (fun p => applyExponent p.1 p.2)

/-- The `parseFloat` model on a string. -/
def parseFloatJS (s : String) : Option ℚ :=
  parseFloatChars s.data

/-- Model of `parseFloat(v)` on a loosely-typed value (the update path applies it to
whatever arrived in the request).  A finite number stringifies and
re-parses to itself; non-finite numbers and boolean strings parse to `NaN`
(`none`). -/
def parseFloatJVal : JVal → Option ℚ
  | .num q => some q
  | .nan => none
  | .jsBool _ => none
  | .str s => parseFloatJS s

/-! ## Transient-fault classifier and resilient executor (handler.js 29-54) -/

/-- The transient markers of the classifier regex
`/ETIMEDOUT|ECONNRESET|EHOSTUNREACH|ER_LOCK_DEADLOCK|PROTOCOL_CONNECTION_LOST/i`. -/
def transientMarkers : List String :=
  ["ETIMEDOUT", "ECONNRESET", "EHOSTUNREACH", "ER_LOCK_DEADLOCK",
   "PROTOCOL_CONNECTION_LOST"]

/-- The `isTransient` test of `withRetries` (handler.js line 39): the error
message matches the alternation case-insensitively. -/
def isTransientMsg (msg : String) : Bool :=
  transientMarkers.any (fun t => containsCI msg t)

instance instDecEqExcept {ε α : Type} [DecidableEq ε] [DecidableEq α] :
    DecidableEq (Except ε α) := fun x y =>
  match x, y with
  | .ok a, .ok b =>
    if h : a = b then .isTrue (by rw [h])
    else .isFalse (by intro hh; cases hh; exact h rfl)
  | .error a, .error b =>
    if h : a = b then .isTrue (by rw [h])
    else .isFalse (by intro hh; cases hh; exact h rfl)
  | .ok _, .error _ => .isFalse (by intro hh; cases hh)
  | .error _, .ok _ => .isFalse (by intro hh; cases hh)

/-- Observable trace of one `withRetries` run: the settled result, the
back-off delays slept (in order) and the number of times the wrapped thunk
was invoked. -/
structure RetryTrace (α : Type) where
  result : Except String α
  delays : List ℕ
  calls : ℕ
deriving DecidableEq, Repr

/-- Loop body of `withRetries` (handler.js 32-47).  `f i` is the outcome of
the `i`-th invocation of the thunk; `remaining` counts the loop iterations
still allowed after the current one (the JS loop runs `i = 0 .. attempts`).
On success the value is returned; on a transient error the loop sleeps
`initialDelay * 2^i` (even on the final iteration, as in the source) and
continues; on a non-transient error it breaks and the error is thrown. -/
def withRetriesGo (f : ℕ → Except String α) (initialDelay : ℕ) :
    ℕ → ℕ → RetryTrace α
  | i, remaining =>
    match f i with
    | .ok a => ⟨.ok a, [], 1⟩
    | .error e =>
      if isTransientMsg e then
        match remaining with
        | 0 => ⟨.error e, [initialDelay * 2 ^ i], 1⟩
        | r + 1 =>
          let t := withRetriesGo f initialDelay (i + 1) r
          ⟨t.result, initialDelay * 2 ^ i :: t.delays, t.calls + 1⟩
      else ⟨.error e, [], 1⟩

/-- Model of `withRetries(fn, attempts, initialDelay)`: up to `attempts + 1`
invocations of the thunk. -/
def withRetries (f : ℕ → Except String α) (attempts initialDelay : ℕ) :
    RetryTrace α :=
  withRetriesGo f initialDelay 0 attempts

/-- Model of `queryWithTimeout` (handler.js 50-54).  The source creates
`queryPromise = pool.query(sql, params)` and the timeout promise once,
before calling `withRetries(() => Promise.race([queryPromise,
timeoutPromise]))`.  A JavaScript promise settles exactly once, so every
invocation of the retried thunk awaits the same settled race: the per-call
outcome is the constant `raceFirst`, the result of whichever of the single
query invocation and the single timer settled first (`.error "DB query
timeout"` when the timer won). -/
def queryWithTimeout (raceFirst : Except String α)
    (attempts initialDelay : ℕ) : RetryTrace α :=
  withRetries (fun _ => raceFirst) attempts initialDelay

/-- Modelled from the spec: the resilient executor described in §4.2, in
which each attempt — including every retry — races a fresh invocation of
the underlying database operation against its own per-attempt timer, so the
`i`-th attempt observes the outcome `race i` of the `i`-th race.  This
definition follows the words of the spec and exists to be compared with
`queryWithTimeout`, which embeds the source. -/
def queryWithTimeoutFresh (race : ℕ → Except String α)
    (attempts initialDelay : ℕ) : RetryTrace α :=
  withRetries race attempts initialDelay

/-! ## Field normalizers (criarOperacao, handler.js 1142-1248) -/

/-- Characters kept by `s.replace(/[^0-9.,-]/g, '')`. -/
def moneyKeepChar (c : Char) : Bool :=
  c.isDigit || c = '.' || c = ',' || c = '-'

/-- String branch of `normalizeMoney` (handler.js 1169-1181): trim, keep
only digits, dot, comma and minus; when a comma is present drop the dot
thousands separators and turn commas into the decimal dot; then
`parseFloat`, falling back when the parse is not a finite number. -/
def normalizeMoneyStr (s0 : String) (fallback : ℚ) : ℚ :=
  let s1 := jsTrim s0
  if s1 = "" then fallback
  else
    let kept := s1.data.filter moneyKeepChar
    let processed :=
      if kept.contains ',' then
        (kept.filter (fun c => c ≠ '.')).map (fun c => if c = ',' then '.' else c)
      else kept
    match parseFloatChars processed with
    | some n => n
    | none => fallback

/-- Model of `normalizeMoney(val, fallback)` (handler.js 1166-1182): `null` and
`undefined` are `none`; a finite number passes through; a non-finite number
stringifies to a digit-free string and hence falls back; a boolean
stringifies to `"true"`/`"false"` and likewise falls back through the
string branch. -/
def normalizeMoney (val : Option JVal) (fallback : ℚ) : ℚ :=
  match val with
  | none => fallback
  | some (.num q) => q
  | some .nan => fallback
  | some (.jsBool b) => normalizeMoneyStr (if b then "true" else "false") fallback
  | some (.str s) => normalizeMoneyStr s fallback

/-- Truthy tokens of `normalizeBool` (as strings). -/
def truthyTokens : List String := ["1", "true", "on", "yes", "sim"]

/-- Falsy tokens of `normalizeBool` (as strings). -/
def falsyTokens : List String := ["0", "false", "off", "no", "nao", "não"]

/-- Model of `normalizeBool(val, fallback)` (handler.js 1184-1192): the truthy set
also holds the number `1` and `true`, the falsy set the number `0` and
`false`; string membership is tried verbatim and then lower-cased; anything
else yields the fallback. -/
def normalizeBool (val : Option JVal) (fallback : ℕ) : ℕ :=
  match val with
  | none => fallback
  | some (.num q) => if q = 1 then 1 else if q = 0 then 0 else fallback
  | some .nan => fallback
  | some (.jsBool b) => if b then 1 else 0
  | some (.str s) =>
    if truthyTokens.contains s then 1
    else if truthyTokens.contains (jsLower s) then 1
    else if falsyTokens.contains s then 0
    else if falsyTokens.contains (jsLower s) then 0
    else fallback

/-- Allow-list for `tipo_operacao` (handler.js 1142). -/
def allowedTipoOperacao : List String := ["home_equity", "aquisicao_imovel"]

/-- Allow-list for `imovel_tipo` (handler.js 1143). -/
def allowedImovelTipo : List String := ["casa", "apartamento", "comercial", "terreno"]

/-- Allow-list for `imovel_situacao` (handler.js 1144). -/
def allowedImovelSituacao : List String := ["quitado", "financiado"]

/-- Allow-list for `cliente_restricoes` (handler.js 1145). -/
def allowedRestricoes : List String := ["sim", "nao", "nao_sei"]

/-- The seven operation statuses accepted by `adminUpdateOperacaoStatus`
(handler.js 1707), i.e. the declared status enumeration of an Operation. -/
def allowedStatusOperacao : List String :=
  ["rascunho", "recebida", "em_analise", "pendencia_docs", "aprovada",
   "recusada", "cancelada"]

/-! ## Document slots (processBase64Documents, handler.js 1212-1248) -/

/-- An inbound document object: every sub-field may be absent. -/
structure DocIn where
  name : Option String
  type : Option String
  size : Option ℕ
  base64 : Option String
  compressedSize : Option ℕ
deriving DecidableEq, Repr

/-- The shapes a document slot may take in a request body. -/
inductive DocsField where
  | str (s : String)
  | arr (docs : List DocIn)
  | obj (doc : DocIn)
deriving DecidableEq, Repr

/-- A normalized document entry with every sub-field defaulted. -/
structure DocOut where
  name : String
  type : String
  size : ℕ
  base64 : String
  compressedSize : ℕ
deriving DecidableEq, Repr

/-- What the document column ends up holding after `criarOperacao`:
either the string passed through verbatim, or the JSON serialization of a
list of normalized entries, or — for a single object without a truthy
`base64` — the JSON serialization of the raw object.  The JSON encoding
itself is an external primitive; the model keeps the structured value. -/
inductive DocsStored where
  | raw (s : String)
  | jsonArr (docs : List DocOut)
  | jsonRaw (doc : DocIn)
deriving DecidableEq, Repr

/-- Default the sub-fields of one document object (handler.js 1223-1240). -/
def normalizeDoc (d : DocIn) : DocOut :=
  { name := d.name.getD "arquivo"
    type := d.type.getD "application/octet-stream"
    size := d.size.getD 0
    base64 := d.base64.getD ""
    compressedSize := d.compressedSize.getD 0 }

/-- Model of `processBase64Documents(docsField)` (handler.js 1212-1248): falsy input
(including the empty string) becomes `null`; a non-empty string passes
through; an array is normalized element-wise; a single object with a truthy
`base64` is wrapped in a one-element normalized array, otherwise the object
is serialized as-is. -/
def processBase64Documents (docsField : Option DocsField) : Option DocsStored :=
  match docsField with
  | none => none
  | some (.str s) => if s = "" then none else some (.raw s)
  | some (.arr docs) => some (.jsonArr (docs.map normalizeDoc))
  | some (.obj d) =>
    if jsTruthyStr d.base64 then some (.jsonArr [normalizeDoc d])
    else some (.jsonRaw d)

/-! ## Data model: the MySQL tables as Lean lists -/

/-- A row of the `parceiros` table.  Columns beyond the four filled by the
self-registration insert are nullable; `senha` holds the bcrypt hash and
`senha_temp` the plaintext temporary credential persisted by the promotion
(handler.js 970-996). -/
structure Parceiro where
  id : ℕ
  nome : String
  cpf : String
  email : String
  senha : String
  senha_temp : Option String
  whatsapp : Option String
  razao_social : Option String
  cnpj : Option String
  cidade : Option String
  uf : Option String
  resp_tipo_cnpj : Option String
  resp_perfil_clientes : Option String
  resp_volume_indicacoes : Option String
  status_elegibilidade : Option String
  aceite_termos : Option ℕ
  aceite_lgpd : Option ℕ
deriving DecidableEq, Repr

/-- A row of the `pre_cadastros` table (see the insert at handler.js
595-619). -/
structure PreCadastro where
  id : ℕ
  resp_tipo_cnpj : String
  resp_perfil_clientes : String
  resp_volume_indicacoes : String
  status_elegibilidade : String
  nome_completo : Option String
  cpf : Option String
  whatsapp : Option String
  email : Option String
  razao_social : Option String
  cnpj : Option String
  cidade : Option String
  uf : Option String
  aceite_termos : ℕ
  aceite_lgpd : ℕ
deriving DecidableEq, Repr

/-- A document column of the `operacoes` table.  `fromCreate` tags a value
written by `criarOperacao` (which runs `processBase64Documents`);
`fromUpdate` tags a value written by `atualizarOperacao`, which pushes the
inbound request value without processing it. -/
inductive DocsCol where
  | fromCreate (d : DocsStored)
  | fromUpdate (d : DocsField)
deriving DecidableEq, Repr

/-- A row of the `operacoes` table (insert at handler.js 1195-1281).
Monetary columns are `Option ℚ`: `some q` is a finite numeric value and
`none` records a non-numeric (`NaN`) write from the bare
`parseFloat`.  `enviado_em` is a timestamp modelled as a natural number. -/
structure Operacao where
  id : ℕ
  parceiro_id : ℕ
  tipo_operacao : String
  cliente_nome_completo : String
  cliente_cpf : String
  cliente_telefone : String
  cliente_email : String
  cliente_cep : Option String
  cliente_endereco : Option String
  cliente_renda_faixa : Option String
  cliente_profissao : Option String
  cliente_restricoes : Option String
  cliente_casado : ℕ
  cliente_conjuge_nome : Option String
  cliente_conjuge_cpf : Option String
  imovel_tipo : String
  imovel_cidade : String
  imovel_uf : String
  imovel_endereco_completo : String
  imovel_valor_estimado : Option ℚ
  imovel_situacao : String
  imovel_titular : String
  operacao_valor_imovel : Option ℚ
  operacao_valor_pretendido : Option ℚ
  operacao_finalidade : String
  operacao_prazo_desejado : String
  docs_cliente_rg_cnh : Option DocsCol
  docs_cliente_cpf : Option DocsCol
  docs_cliente_renda : Option DocsCol
  docs_cliente_residencia : Option DocsCol
  docs_cliente_extratos : Option DocsCol
  docs_cliente_conjuge : Option DocsCol
  docs_imovel_matricula : Option DocsCol
  docs_imovel_iptu : Option DocsCol
  docs_imovel_escritura : Option DocsCol
  docs_imovel_fotos : Option DocsCol
  docs_outros : Option DocsCol
  status_operacao : String
  aceite_lgpd : ℕ
  aceite_declaracao : ℕ
  enviado_em : Option ℕ
deriving DecidableEq, Repr

/-- The persistent store: the `admin`, `parceiros`, `pre_cadastros` and
`operacoes` tables plus the auto-increment counters that produce
`insertId`. -/
structure Db where
  admins : List ℕ
  parceiros : List Parceiro
  preCadastros : List PreCadastro
  operacoes : List Operacao
  nextParceiroId : ℕ
  nextPreCadastroId : ℕ
  nextOperacaoId : ℕ
deriving DecidableEq, Repr

/-! ## Email check of preCadastro (handler.js 564)

The validation is `/\S+@\S+\.\S+/.test(email)`: somewhere in the string
there must be a non-space character, an `@`, a contiguous non-space run, a
dot and a further non-space character. -/

/-- The class `\S`: any character that is not regex whitespace. -/
def nonSpace (c : Char) : Bool := !(jsWhitespaceChar c)

/-- After the `@`: walking right over non-space characters (at least one of
which — tracked by `consumed` — must precede the dot), find a `.` followed
by a non-space character. -/
def emailSeekDot (consumed : Bool) : List Char → Bool
  | [] => false
  | c :: rest =>
    if c = '.' && consumed &&
        (match rest.head? with | some d => nonSpace d | none => false) then
      true
    else if nonSpace c then emailSeekDot true rest
    else false

/-- Scan for an `@` preceded by a non-space character whose tail admits
`\S+\.\S+`. -/
def emailScan : List Char → Bool
  | [] => false
  | a :: rest =>
    (match rest with
     | '@' :: tail => nonSpace a && emailSeekDot false tail
     | _ => false)
    || emailScan rest

/-- The test `/\S+@\S+\.\S+/.test(email)`. -/
def emailRegexTest (s : String) : Bool := emailScan s.data

/-! ## preCadastro — pre-registration creation (handler.js 521-641) -/

/-- The request body of `POST /parceiros/pre-cadastro`. -/
structure PreCadastroReq where
  resp_tipo_cnpj : Option String
  resp_perfil_clientes : Option String
  resp_volume_indicacoes : Option String
  nome_completo : Option String
  cpf : Option String
  whatsapp : Option String
  email : Option String
  razao_social : Option String
  cnpj : Option String
  cidade : Option String
  uf : Option String
  aceite_termos : Option JVal
  aceite_lgpd : Option JVal
deriving DecidableEq, Repr

/-- Response of `preCadastro`. -/
inductive PreCadastroResp where
  | badTriagem
  | badNome
  | badEmail
  | dup
  | created (id : ℕ) (status : String)
deriving DecidableEq, Repr

/-- The eligibility rule (handler.js 573-577): rejected when either
screening answer is the literal `NAO`, otherwise pre-approved. -/
def statusElegibilidade (resp_tipo_cnpj resp_perfil_clientes : Option String) :
    String :=
  if resp_tipo_cnpj = some "NAO" || resp_perfil_clientes = some "NAO" then
    "reprovado"
  else "pre-aprovado"

/-- The coercion `v || null`: store the string when truthy, else SQL NULL. -/
def optField (o : Option String) : Option String :=
  if jsTruthyStr o then some (jsStr o) else none

/-- The duplicate check of `preCadastro` (handler.js 582-593), run only
when a truthy cpf or cnpj was supplied: does any `pre_cadastros` row have a
non-NULL `cpf` equal to `cpf || ''` or a non-NULL `cnpj` equal to
`cnpj || ''`? -/
def preCadastroDup (rows : List PreCadastro) (cpf cnpj : Option String) : Bool :=
  rows.any (fun row =>
    row.cpf = some (jsStr cpf) || row.cnpj = some (jsStr cnpj))

/-- Model of `preCadastro` (handler.js 521-641): screening-field validation, name
and e-mail format validation, eligibility computation, the duplicate check
against `pre_cadastros`, and the insert. -/
def preCadastro (db : Db) (req : PreCadastroReq) : PreCadastroResp × Db :=
  if !(jsTruthyStr req.resp_tipo_cnpj) || !(jsTruthyStr req.resp_perfil_clientes)
      || !(jsTruthyStr req.resp_volume_indicacoes) then
    (.badTriagem, db)
  else if jsTruthyStr req.nome_completo && jsTrim (jsStr req.nome_completo) = "" then
    (.badNome, db)
  else if jsTruthyStr req.email && !(emailRegexTest (jsStr req.email)) then
    (.badEmail, db)
  else
    let status := statusElegibilidade req.resp_tipo_cnpj req.resp_perfil_clientes
    if (jsTruthyStr req.cpf || jsTruthyStr req.cnpj) &&
        preCadastroDup db.preCadastros req.cpf req.cnpj then
      (.dup, db)
    else
      let row : PreCadastro :=
        { id := db.nextPreCadastroId
          resp_tipo_cnpj := jsStr req.resp_tipo_cnpj
          resp_perfil_clientes := jsStr req.resp_perfil_clientes
          resp_volume_indicacoes := jsStr req.resp_volume_indicacoes
          status_elegibilidade := status
          nome_completo := optField req.nome_completo
          cpf := optField req.cpf
          whatsapp := optField req.whatsapp
          email := optField req.email
          razao_social := optField req.razao_social
          cnpj := optField req.cnpj
          cidade := optField req.cidade
          uf := optField req.uf
          aceite_termos := if jsTruthyOpt req.aceite_termos then 1 else 0
          aceite_lgpd := if jsTruthyOpt req.aceite_lgpd then 1 else 0 }
      (.created db.nextPreCadastroId status,
       { db with preCadastros := db.preCadastros ++ [row]
                 nextPreCadastroId := db.nextPreCadastroId + 1 })

/-! ## adminUpdatePreCadastroStatus (handler.js 798-877) -/

/-- Response of `adminUpdatePreCadastroStatus`. -/
inductive UpdateStatusResp where
  | missing
  | invalidStatus
  | forbidden
  | notFound
  | ok
deriving DecidableEq, Repr

/-- Model of `adminUpdatePreCadastroStatus`: required-field check, the allow-list
holding only `reprovado` (approval is reachable only through the promotion
endpoint), admin and record existence checks, then the status UPDATE. -/
def adminUpdatePreCadastroStatus (db : Db) (adminId preCadastroId : Option ℕ)
    (status : Option String) : UpdateStatusResp × Db :=
  if !(jsTruthyNat adminId) || !(jsTruthyNat preCadastroId)
      || !(jsTruthyStr status) then
    (.missing, db)
  else if !(["reprovado"].contains (jsStr status)) then
    (.invalidStatus, db)
  else if !(db.admins.contains (adminId.getD 0)) then
    (.forbidden, db)
  else if !(db.preCadastros.any (fun pc => pc.id = preCadastroId.getD 0)) then
    (.notFound, db)
  else
    (.ok,
     { db with preCadastros := db.preCadastros.map (fun pc =>
         if pc.id = preCadastroId.getD 0 then
           { pc with status_elegibilidade := jsStr status }
         else pc) })

/-! ## adminTransformarParceiro — the promotion transaction
(handler.js 880-1024) -/

/-- Response of `adminTransformarParceiro`. -/
inductive TransformResp where
  | missing
  | forbidden
  | notFound
  | incomplete
  | conflict (field : String) (existingParceiroId : ℕ) (existingNome : String)
  | ok (parceiroId : ℕ) (senhaTemporaria : String)
deriving DecidableEq, Repr

/-- The `parceiros` row inserted by the promotion (handler.js 970-998):
the data of the pre-registration, the bcrypt hash of the temporary credential as
`senha`, the literal status `aprovado`, and the plaintext temporary
credential persisted in `senha_temp` for administrator display. -/
def parceiroFromPre (pc : PreCadastro) (newId : ℕ) (senhaTemp : String)
    (bcryptHash : String → String) : Parceiro :=
  { id := newId
    nome := pc.nome_completo.getD ""
    cpf := pc.cpf.getD ""
    email := pc.email.getD ""
    senha := bcryptHash senhaTemp
    senha_temp := some senhaTemp
    whatsapp := pc.whatsapp
    razao_social := pc.razao_social
    cnpj := pc.cnpj
    cidade := pc.cidade
    uf := pc.uf
    resp_tipo_cnpj := some pc.resp_tipo_cnpj
    resp_perfil_clientes := some pc.resp_perfil_clientes
    resp_volume_indicacoes := some pc.resp_volume_indicacoes
    status_elegibilidade := some "aprovado"
    aceite_termos := some pc.aceite_termos
    aceite_lgpd := some pc.aceite_lgpd }

/-- Verify operation of the one-way credential primitive: `bcrypt.compare`
holds exactly of the plaintext whose hash was stored.  The hash function
itself is an abstract parameter (the model never fixes it). -/
def bcryptVerify (bcryptHash : String → String) (plain stored : String) : Bool :=
  bcryptHash plain = stored

/-- Model of `adminTransformarParceiro` (handler.js 880-1024): `senhaTemp` models
the random 8-character credential drawn at line 967 and `bcryptHash` the
bcrypt primitive; both are environment inputs of the handler.  Steps:
required fields, admin check, load of the pre-registration, mandatory-field
check (name, cpf, email), duplicate-partner check on cpf or email naming
the collided field, then the insert into `parceiros` followed by the delete
from `pre_cadastros`. -/
def adminTransformarParceiro (db : Db) (adminId preCadastroId : Option ℕ)
    (senhaTemp : String) (bcryptHash : String → String) : TransformResp × Db :=
  if !(jsTruthyNat adminId) || !(jsTruthyNat preCadastroId) then
    (.missing, db)
  else if !(db.admins.contains (adminId.getD 0)) then
    (.forbidden, db)
  else
    match db.preCadastros.find? (fun pc => pc.id = preCadastroId.getD 0) with
    | none => (.notFound, db)
    | some pc =>
      if !(jsTruthyStr pc.nome_completo) || !(jsTruthyStr pc.cpf)
          || !(jsTruthyStr pc.email) then
        (.incomplete, db)
      else
        match db.parceiros.find? (fun p =>
            p.cpf = pc.cpf.getD "" || p.email = pc.email.getD "") with
        | some existing =>
          (.conflict (if existing.cpf = pc.cpf.getD "" then "cpf" else "email")
             existing.id existing.nome, db)
        | none =>
          let novo := parceiroFromPre pc db.nextParceiroId senhaTemp bcryptHash
          (.ok db.nextParceiroId senhaTemp,
           { db with
               parceiros := db.parceiros ++ [novo]
               nextParceiroId := db.nextParceiroId + 1
               preCadastros := db.preCadastros.filter
                 (fun q => q.id ≠ preCadastroId.getD 0) })

/-! ## Admin partner reads (handler.js 324-447) -/

/-- A row of the partner SELECT used by `adminListParceiros` and
`adminGetParceiro`: its `senha` column is
`COALESCE(senha_temp, SUBSTRING(MD5(CONCAT(id, nome)), 1, 8))` — the stored
plaintext temporary credential when present, else an MD5-derived fallback
(`md5fb`, an abstract primitive). -/
structure ParceiroView where
  id : ℕ
  nome : String
  cpf : String
  email : String
  senha : String
  whatsapp : Option String
  razao_social : Option String
  cnpj : Option String
  cidade : Option String
  uf : Option String
  resp_tipo_cnpj : Option String
  resp_perfil_clientes : Option String
  resp_volume_indicacoes : Option String
deriving DecidableEq, Repr

/-- Project one `parceiros` row through the column list of the admin SELECT. -/
def parceiroView (md5fb : ℕ → String → String) (p : Parceiro) : ParceiroView :=
  { id := p.id
    nome := p.nome
    cpf := p.cpf
    email := p.email
    senha := p.senha_temp.getD (md5fb p.id p.nome)
    whatsapp := p.whatsapp
    razao_social := p.razao_social
    cnpj := p.cnpj
    cidade := p.cidade
    uf := p.uf
    resp_tipo_cnpj := p.resp_tipo_cnpj
    resp_perfil_clientes := p.resp_perfil_clientes
    resp_volume_indicacoes := p.resp_volume_indicacoes }

/-- Response of `adminListParceiros`. -/
inductive ListParceirosResp where
  | missing
  | forbidden
  | ok (parceiros : List ParceiroView) (total : ℕ)
deriving DecidableEq, Repr

/-- Model of `adminListParceiros` (handler.js 324-382).  The `ORDER BY created_at
DESC` clause only permutes the rows; the model returns them in table
order. -/
def adminListParceiros (db : Db) (adminId : Option ℕ)
    (md5fb : ℕ → String → String) : ListParceirosResp :=
  if !(jsTruthyNat adminId) then .missing
  else if !(db.admins.contains (adminId.getD 0)) then .forbidden
  else .ok (db.parceiros.map (parceiroView md5fb)) db.parceiros.length

/-- Response of `adminGetParceiro`. -/
inductive GetParceiroResp where
  | missing
  | forbidden
  | notFound
  | found (parceiro : ParceiroView)
deriving DecidableEq, Repr

/-- Model of `adminGetParceiro` (handler.js 385-447). -/
def adminGetParceiro (db : Db) (adminId parceiroId : Option ℕ)
    (md5fb : ℕ → String → String) : GetParceiroResp :=
  if !(jsTruthyNat adminId) || !(jsTruthyNat parceiroId) then .missing
  else if !(db.admins.contains (adminId.getD 0)) then .forbidden
  else
    match db.parceiros.find? (fun p => p.id = parceiroId.getD 0) with
    | none => .notFound
    | some p => .found (parceiroView md5fb p)

/-! ## criarOperacao — operation creation (handler.js 1031-1321) -/

/-- The request body of `POST /operacoes/criar`. -/
structure CriarOperacaoReq where
  parceiro_id : Option ℕ
  tipo_operacao : Option String
  cliente_nome_completo : Option String
  cliente_cpf : Option String
  cliente_telefone : Option String
  cliente_email : Option String
  cliente_cep : Option String
  cliente_endereco : Option String
  cliente_renda_faixa : Option String
  cliente_profissao : Option String
  cliente_restricoes : Option String
  cliente_casado : Option JVal
  cliente_conjuge_nome : Option String
  cliente_conjuge_cpf : Option String
  imovel_tipo : Option String
  imovel_cidade : Option String
  imovel_uf : Option String
  imovel_endereco_completo : Option String
  imovel_valor_estimado : Option JVal
  imovel_situacao : Option String
  imovel_titular : Option String
  operacao_valor_imovel : Option JVal
  operacao_valor_pretendido : Option JVal
  operacao_finalidade : Option String
  operacao_prazo_desejado : Option String
  docs_cliente_rg_cnh : Option DocsField
  docs_cliente_cpf : Option DocsField
  docs_cliente_renda : Option DocsField
  docs_cliente_residencia : Option DocsField
  docs_cliente_extratos : Option DocsField
  docs_cliente_conjuge : Option DocsField
  docs_imovel_matricula : Option DocsField
  docs_imovel_iptu : Option DocsField
  docs_imovel_escritura : Option DocsField
  docs_imovel_fotos : Option DocsField
  docs_outros : Option DocsField
  status_operacao : Option String
  aceite_lgpd : Option JVal
  aceite_declaracao : Option JVal
deriving DecidableEq, Repr

/-- Response of `criarOperacao`. -/
inductive OpCreateResp where
  | missingParceiroId
  | missingTipoOperacao
  | userNotFound
  | created (id : ℕ) (status : String)
deriving DecidableEq, Repr

/-- Enum sanitization used by `criarOperacao` (handler.js 1147-1161):
lower-case the candidate and keep it when it is in the allow-list, else
take the default. -/
def enumOrDefault (allowed : List String) (v : Option String) (dflt : String) :
    String :=
  if allowed.contains (jsLower (jsStr v)) then jsLower (jsStr v) else dflt

/-- The `imovel_uf` sanitization (handler.js 1163): default to `SP`, upper-case,
strip everything outside `A`-`Z`, keep two characters, and fall back to
`SP` when nothing is left. -/
def sanitizeUf (v : Option String) : String :=
  let base := jsStrD v "SP"
  let cleaned := ((base.data.map asciiUpper).filter
    (fun c => 'A' ≤ c && c ≤ 'Z')).take 2
  if cleaned = [] then "SP" else String.mk cleaned

/-- The `operacoes` row built by `criarOperacao` (handler.js 1135-1281),
where `now` models `new Date()`: defaulted strings, sanitized enums,
normalized money and booleans, processed document slots, the raw
`status_operacao || rascunho` and the `enviado_em` stamp when the request
status is the literal `recebida`. -/
def criarOperacaoRow (db : Db) (req : CriarOperacaoReq) (now : ℕ) :
    Operacao :=
  { id := db.nextOperacaoId
    parceiro_id := req.parceiro_id.getD 0
    tipo_operacao := enumOrDefault allowedTipoOperacao req.tipo_operacao
      "home_equity"
    cliente_nome_completo := jsStrD req.cliente_nome_completo
      "Nome não informado"
    cliente_cpf := jsStrD req.cliente_cpf "000.000.000-00"
    cliente_telefone := jsStrD req.cliente_telefone "(00) 0000-0000"
    cliente_email := jsStrD req.cliente_email "email@exemplo.com"
    cliente_cep := optField req.cliente_cep
    cliente_endereco := optField req.cliente_endereco
    cliente_renda_faixa := optField req.cliente_renda_faixa
    cliente_profissao := optField req.cliente_profissao
    cliente_restricoes :=
      (if allowedRestricoes.contains (jsLower (jsStr req.cliente_restricoes))
       then some (jsLower (jsStr req.cliente_restricoes)) else none)
    cliente_casado := normalizeBool req.cliente_casado 0
    cliente_conjuge_nome := optField req.cliente_conjuge_nome
    cliente_conjuge_cpf := optField req.cliente_conjuge_cpf
    imovel_tipo := enumOrDefault allowedImovelTipo req.imovel_tipo "casa"
    imovel_cidade := jsStrD req.imovel_cidade "Não informada"
    imovel_uf := sanitizeUf req.imovel_uf
    imovel_endereco_completo := jsStrD req.imovel_endereco_completo
      "Endereço não informado"
    imovel_valor_estimado := some (normalizeMoney req.imovel_valor_estimado
      100000)
    imovel_situacao := enumOrDefault allowedImovelSituacao
      req.imovel_situacao "quitado"
    imovel_titular := jsStrD req.imovel_titular "Titular não informado"
    operacao_valor_imovel := some (normalizeMoney req.operacao_valor_imovel
      100000)
    operacao_valor_pretendido := some (normalizeMoney
      req.operacao_valor_pretendido 50000)
    operacao_finalidade := jsStrD req.operacao_finalidade
      "Finalidade não informada"
    operacao_prazo_desejado := jsStrD req.operacao_prazo_desejado "12 meses"
    docs_cliente_rg_cnh := (processBase64Documents
      req.docs_cliente_rg_cnh).map .fromCreate
    docs_cliente_cpf := (processBase64Documents
      req.docs_cliente_cpf).map .fromCreate
    docs_cliente_renda := (processBase64Documents
      req.docs_cliente_renda).map .fromCreate
    docs_cliente_residencia := (processBase64Documents
      req.docs_cliente_residencia).map .fromCreate
    docs_cliente_extratos := (processBase64Documents
      req.docs_cliente_extratos).map .fromCreate
    docs_cliente_conjuge := (processBase64Documents
      req.docs_cliente_conjuge).map .fromCreate
    docs_imovel_matricula := (processBase64Documents
      req.docs_imovel_matricula).map .fromCreate
    docs_imovel_iptu := (processBase64Documents
      req.docs_imovel_iptu).map .fromCreate
    docs_imovel_escritura := (processBase64Documents
      req.docs_imovel_escritura).map .fromCreate
    docs_imovel_fotos := (processBase64Documents
      req.docs_imovel_fotos).map .fromCreate
    docs_outros := (processBase64Documents req.docs_outros).map .fromCreate
    status_operacao := jsStrD req.status_operacao "rascunho"
    aceite_lgpd := normalizeBool req.aceite_lgpd 0
    aceite_declaracao := normalizeBool req.aceite_declaracao 0
    enviado_em := if req.status_operacao = some "recebida" then some now
      else none }

/-- Model of `criarOperacao` (handler.js 1031-1321): required `parceiro_id`
and `tipo_operacao`, partner existence check, then the insert of
`criarOperacaoRow`. -/
def criarOperacao (db : Db) (req : CriarOperacaoReq) (now : ℕ) :
    OpCreateResp × Db :=
  if !(jsTruthyNat req.parceiro_id) then (.missingParceiroId, db)
  else if !(jsTruthyStr req.tipo_operacao) then (.missingTipoOperacao, db)
  else if !(db.parceiros.any (fun p => p.id = req.parceiro_id.getD 0)) then
    (.userNotFound, db)
  else
    (.created db.nextOperacaoId (jsStrD req.status_operacao "rascunho"),
     { db with operacoes := db.operacoes ++ [criarOperacaoRow db req now]
               nextOperacaoId := db.nextOperacaoId + 1 })

/-! ## atualizarOperacao — partial update (handler.js 1455-1552) -/

/-- The request body of `PUT /operacoes/atualizar`: every updatable column
is optional (`none` models a key absent from the JSON body, which the
source skips via its `!== undefined` test). -/
structure AtualizarOperacaoReq where
  operacao_id : Option ℕ
  parceiro_id : Option ℕ
  tipo_operacao : Option String
  cliente_nome_completo : Option String
  cliente_cpf : Option String
  cliente_telefone : Option String
  cliente_email : Option String
  cliente_cep : Option String
  cliente_endereco : Option String
  cliente_renda_faixa : Option String
  cliente_profissao : Option String
  cliente_restricoes : Option String
  cliente_casado : Option JVal
  cliente_conjuge_nome : Option String
  cliente_conjuge_cpf : Option String
  imovel_tipo : Option String
  imovel_cidade : Option String
  imovel_uf : Option String
  imovel_endereco_completo : Option String
  imovel_valor_estimado : Option JVal
  imovel_situacao : Option String
  imovel_titular : Option String
  operacao_valor_imovel : Option JVal
  operacao_valor_pretendido : Option JVal
  operacao_finalidade : Option String
  operacao_prazo_desejado : Option String
  docs_cliente_rg_cnh : Option DocsField
  docs_cliente_cpf : Option DocsField
  docs_cliente_renda : Option DocsField
  docs_cliente_residencia : Option DocsField
  docs_cliente_extratos : Option DocsField
  docs_cliente_conjuge : Option DocsField
  docs_imovel_matricula : Option DocsField
  docs_imovel_iptu : Option DocsField
  docs_imovel_escritura : Option DocsField
  docs_imovel_fotos : Option DocsField
  docs_outros : Option DocsField
  status_operacao : Option String
  aceite_lgpd : Option JVal
  aceite_declaracao : Option JVal
deriving DecidableEq, Repr

/-- Response of `atualizarOperacao`. -/
inductive OpUpdateResp where
  | missing
  | notFound
  | noFields
  | ok
deriving DecidableEq, Repr

/-- Is any updatable field present in the request?  (Mirrors
`updateFields.length === 0` after the loop over `allowedFields`.) -/
def anyUpdateField (u : AtualizarOperacaoReq) : Bool :=
  u.tipo_operacao.isSome || u.cliente_nome_completo.isSome ||
  u.cliente_cpf.isSome || u.cliente_telefone.isSome ||
  u.cliente_email.isSome || u.cliente_cep.isSome ||
  u.cliente_endereco.isSome || u.cliente_renda_faixa.isSome ||
  u.cliente_profissao.isSome || u.cliente_restricoes.isSome ||
  u.cliente_casado.isSome || u.cliente_conjuge_nome.isSome ||
  u.cliente_conjuge_cpf.isSome || u.imovel_tipo.isSome ||
  u.imovel_cidade.isSome || u.imovel_uf.isSome ||
  u.imovel_endereco_completo.isSome || u.imovel_valor_estimado.isSome ||
  u.imovel_situacao.isSome || u.imovel_titular.isSome ||
  u.operacao_valor_imovel.isSome || u.operacao_valor_pretendido.isSome ||
  u.operacao_finalidade.isSome || u.operacao_prazo_desejado.isSome ||
  u.docs_cliente_rg_cnh.isSome || u.docs_cliente_cpf.isSome ||
  u.docs_cliente_renda.isSome || u.docs_cliente_residencia.isSome ||
  u.docs_cliente_extratos.isSome || u.docs_cliente_conjuge.isSome ||
  u.docs_imovel_matricula.isSome || u.docs_imovel_iptu.isSome ||
  u.docs_imovel_escritura.isSome || u.docs_imovel_fotos.isSome ||
  u.docs_outros.isSome || u.status_operacao.isSome ||
  u.aceite_lgpd.isSome || u.aceite_declaracao.isSome

/-- The SET clause of `atualizarOperacao` applied to one row (handler.js
1505-1522): a present `valor_` field is written as `parseFloat(value)`
(`none` models a `NaN` write), a present boolean field as the truthiness
coercion `value ? 1 : 0`, any other present field verbatim, and
`enviado_em` is stamped whenever the request status is the literal
`recebida`.  Absent fields are not part of the SET clause. -/
def applyUpdate (op : Operacao) (u : AtualizarOperacaoReq) (now : ℕ) :
    Operacao :=
  { op with
      tipo_operacao := u.tipo_operacao.getD op.tipo_operacao
      cliente_nome_completo :=
        u.cliente_nome_completo.getD op.cliente_nome_completo
      cliente_cpf := u.cliente_cpf.getD op.cliente_cpf
      cliente_telefone := u.cliente_telefone.getD op.cliente_telefone
      cliente_email := u.cliente_email.getD op.cliente_email
      cliente_cep := match u.cliente_cep with
        | some v => some v | none => op.cliente_cep
      cliente_endereco := match u.cliente_endereco with
        | some v => some v | none => op.cliente_endereco
      cliente_renda_faixa := match u.cliente_renda_faixa with
        | some v => some v | none => op.cliente_renda_faixa
      cliente_profissao := match u.cliente_profissao with
        | some v => some v | none => op.cliente_profissao
      cliente_restricoes := match u.cliente_restricoes with
        | some v => some v | none => op.cliente_restricoes
      cliente_casado := match u.cliente_casado with
        | some v => if jsTruthyVal v then 1 else 0 | none => op.cliente_casado
      cliente_conjuge_nome := match u.cliente_conjuge_nome with
        | some v => some v | none => op.cliente_conjuge_nome
      cliente_conjuge_cpf := match u.cliente_conjuge_cpf with
        | some v => some v | none => op.cliente_conjuge_cpf
      imovel_tipo := u.imovel_tipo.getD op.imovel_tipo
      imovel_cidade := u.imovel_cidade.getD op.imovel_cidade
      imovel_uf := u.imovel_uf.getD op.imovel_uf
      imovel_endereco_completo :=
        u.imovel_endereco_completo.getD op.imovel_endereco_completo
      imovel_valor_estimado := match u.imovel_valor_estimado with
        | some v => parseFloatJVal v | none => op.imovel_valor_estimado
      imovel_situacao := u.imovel_situacao.getD op.imovel_situacao
      imovel_titular := u.imovel_titular.getD op.imovel_titular
      operacao_valor_imovel := match u.operacao_valor_imovel with
        | some v => parseFloatJVal v | none => op.operacao_valor_imovel
      operacao_valor_pretendido := match u.operacao_valor_pretendido with
        | some v => parseFloatJVal v | none => op.operacao_valor_pretendido
      operacao_finalidade := u.operacao_finalidade.getD op.operacao_finalidade
      operacao_prazo_desejado :=
        u.operacao_prazo_desejado.getD op.operacao_prazo_desejado
      docs_cliente_rg_cnh := match u.docs_cliente_rg_cnh with
        | some v => some (.fromUpdate v) | none => op.docs_cliente_rg_cnh
      docs_cliente_cpf := match u.docs_cliente_cpf with
        | some v => some (.fromUpdate v) | none => op.docs_cliente_cpf
      docs_cliente_renda := match u.docs_cliente_renda with
        | some v => some (.fromUpdate v) | none => op.docs_cliente_renda
      docs_cliente_residencia := match u.docs_cliente_residencia with
        | some v => some (.fromUpdate v) | none => op.docs_cliente_residencia
      docs_cliente_extratos := match u.docs_cliente_extratos with
        | some v => some (.fromUpdate v) | none => op.docs_cliente_extratos
      docs_cliente_conjuge := match u.docs_cliente_conjuge with
        | some v => some (.fromUpdate v) | none => op.docs_cliente_conjuge
      docs_imovel_matricula := match u.docs_imovel_matricula with
        | some v => some (.fromUpdate v) | none => op.docs_imovel_matricula
      docs_imovel_iptu := match u.docs_imovel_iptu with
        | some v => some (.fromUpdate v) | none => op.docs_imovel_iptu
      docs_imovel_escritura := match u.docs_imovel_escritura with
        | some v => some (.fromUpdate v) | none => op.docs_imovel_escritura
      docs_imovel_fotos := match u.docs_imovel_fotos with
        | some v => some (.fromUpdate v) | none => op.docs_imovel_fotos
      docs_outros := match u.docs_outros with
        | some v => some (.fromUpdate v) | none => op.docs_outros
      status_operacao := u.status_operacao.getD op.status_operacao
      aceite_lgpd := match u.aceite_lgpd with
        | some v => if jsTruthyVal v then 1 else 0 | none => op.aceite_lgpd
      aceite_declaracao := match u.aceite_declaracao with
        | some v => if jsTruthyVal v then 1 else 0 | none => op.aceite_declaracao
      enviado_em := if u.status_operacao = some "recebida" then some now
        else op.enviado_em }

/-- Model of `atualizarOperacao` (handler.js 1455-1552): required ids, ownership
check (`id = ? AND parceiro_id = ?`), emptiness check of the SET clause,
then the UPDATE over the matching rows. -/
def atualizarOperacao (db : Db) (u : AtualizarOperacaoReq) (now : ℕ) :
    OpUpdateResp × Db :=
  if !(jsTruthyNat u.operacao_id) || !(jsTruthyNat u.parceiro_id) then
    (.missing, db)
  else if !(db.operacoes.any (fun op =>
      op.id = u.operacao_id.getD 0 && op.parceiro_id = u.parceiro_id.getD 0)) then
    (.notFound, db)
  else if !(anyUpdateField u) then (.noFields, db)
  else
    (.ok,
     { db with operacoes := db.operacoes.map (fun op =>
         if op.id = u.operacao_id.getD 0 && op.parceiro_id = u.parceiro_id.getD 0
         then applyUpdate op u now else op) })

/-! ## Concrete sample data

Small concrete stores and requests used to evaluate the handlers at
explicit inputs. -/

/-- A concrete stand-in for the abstract bcrypt hash primitive. -/
def hash0 : String → String := fun s => String.append "H" s

/-- A concrete stand-in for the MD5-derived credential fallback of the
admin partner SELECT. -/
def md5fb0 : ℕ → String → String := fun _ _ => "md5fallback"

/-- A complete pre-registration row, ready for promotion. -/
def pcSample : PreCadastro :=
  { id := 7, resp_tipo_cnpj := "SIM", resp_perfil_clientes := "SIM",
    resp_volume_indicacoes := "1-5", status_elegibilidade := "pre-aprovado",
    nome_completo := some "Ana Silva", cpf := some "11122233344",
    whatsapp := none, email := some "ana@ex.com", razao_social := none,
    cnpj := none, cidade := none, uf := none, aceite_termos := 1,
    aceite_lgpd := 1 }

/-- A store with one admin and one promotable pre-registration. -/
def db0 : Db :=
  { admins := [1], parceiros := [], preCadastros := [pcSample],
    operacoes := [], nextParceiroId := 1, nextPreCadastroId := 8,
    nextOperacaoId := 1 }

/-- An existing partner sharing the cpf of `pcSample`. -/
def pExisting : Parceiro :=
  { id := 3, nome := "Bob", cpf := "11122233344", email := "bob@ex.com",
    senha := "h", senha_temp := none, whatsapp := none, razao_social := none,
    cnpj := none, cidade := none, uf := none, resp_tipo_cnpj := none,
    resp_perfil_clientes := none, resp_volume_indicacoes := none,
    status_elegibilidade := none, aceite_termos := none, aceite_lgpd := none }

/-- The store `db0` with the colliding partner present. -/
def db1 : Db := { db0 with parceiros := [pExisting] }

/-- The store after promoting `pcSample` out of `db0`. -/
def dbPromoted : Db :=
  (adminTransformarParceiro db0 (some 1) (some 7) "pw123456" hash0).2

/-- A pre-registration request whose cpf equals that of `pExisting`. -/
def reqPC : PreCadastroReq :=
  { resp_tipo_cnpj := some "SIM", resp_perfil_clientes := some "SIM",
    resp_volume_indicacoes := some "1-5", nome_completo := none,
    cpf := some "11122233344", whatsapp := none, email := none,
    razao_social := none, cnpj := none, cidade := none, uf := none,
    aceite_termos := none, aceite_lgpd := none }

/-- A store with `pExisting` as partner and no pre-registrations. -/
def dbP : Db :=
  { admins := [1], parceiros := [pExisting], preCadastros := [],
    operacoes := [], nextParceiroId := 4, nextPreCadastroId := 1,
    nextOperacaoId := 1 }

/-- An operation-creation request with every field absent. -/
def emptyCriarReq : CriarOperacaoReq :=
  { parceiro_id := none, tipo_operacao := none, cliente_nome_completo := none,
    cliente_cpf := none, cliente_telefone := none, cliente_email := none,
    cliente_cep := none, cliente_endereco := none, cliente_renda_faixa := none,
    cliente_profissao := none, cliente_restricoes := none,
    cliente_casado := none, cliente_conjuge_nome := none,
    cliente_conjuge_cpf := none, imovel_tipo := none, imovel_cidade := none,
    imovel_uf := none, imovel_endereco_completo := none,
    imovel_valor_estimado := none, imovel_situacao := none,
    imovel_titular := none, operacao_valor_imovel := none,
    operacao_valor_pretendido := none, operacao_finalidade := none,
    operacao_prazo_desejado := none, docs_cliente_rg_cnh := none,
    docs_cliente_cpf := none, docs_cliente_renda := none,
    docs_cliente_residencia := none, docs_cliente_extratos := none,
    docs_cliente_conjuge := none, docs_imovel_matricula := none,
    docs_imovel_iptu := none, docs_imovel_escritura := none,
    docs_imovel_fotos := none, docs_outros := none, status_operacao := none,
    aceite_lgpd := none, aceite_declaracao := none }

/-- A minimal valid operation-creation request for partner 3. -/
def reqOp1 : CriarOperacaoReq :=
  { emptyCriarReq with
    parceiro_id := some 3
    tipo_operacao := some "home_equity" }

/-- A creation request with a negative monetary value and an
out-of-enumeration status. -/
def reqOpNeg : CriarOperacaoReq :=
  { emptyCriarReq with
    parceiro_id := some 3
    tipo_operacao := some "home_equity"
    imovel_valor_estimado := some (.num (-5))
    status_operacao := some "garbage" }

/-- An operation-update request with every field absent. -/
def emptyUpdReq : AtualizarOperacaoReq :=
  { operacao_id := none, parceiro_id := none, tipo_operacao := none,
    cliente_nome_completo := none, cliente_cpf := none,
    cliente_telefone := none, cliente_email := none, cliente_cep := none,
    cliente_endereco := none, cliente_renda_faixa := none,
    cliente_profissao := none, cliente_restricoes := none,
    cliente_casado := none, cliente_conjuge_nome := none,
    cliente_conjuge_cpf := none, imovel_tipo := none, imovel_cidade := none,
    imovel_uf := none, imovel_endereco_completo := none,
    imovel_valor_estimado := none, imovel_situacao := none,
    imovel_titular := none, operacao_valor_imovel := none,
    operacao_valor_pretendido := none, operacao_finalidade := none,
    operacao_prazo_desejado := none, docs_cliente_rg_cnh := none,
    docs_cliente_cpf := none, docs_cliente_renda := none,
    docs_cliente_residencia := none, docs_cliente_extratos := none,
    docs_cliente_conjuge := none, docs_imovel_matricula := none,
    docs_imovel_iptu := none, docs_imovel_escritura := none,
    docs_imovel_fotos := none, docs_outros := none, status_operacao := none,
    aceite_lgpd := none, aceite_declaracao := none }

/-- The store `dbP` after creating the operation of `reqOp1`. -/
def dbOps : Db := (criarOperacao dbP reqOp1 0).2

/-- An update request writing a negative money string and an
out-of-enumeration status on operation 1 of partner 3. -/
def updNeg : AtualizarOperacaoReq :=
  { emptyUpdReq with
    operacao_id := some 1
    parceiro_id := some 3
    operacao_valor_pretendido := some (.str "-7")
    status_operacao := some "weird" }

/-- The `senha` column a partner-detail read exposes, when any. -/
def viewSenha : GetParceiroResp → Option String
  | .found v => some v.senha
  | _ => none

/-- The `senha` columns a partner-list read exposes. -/
def listSenhas : ListParceirosResp → List String
  | .ok vs _ => vs.map (fun v => v.senha)
  | _ => []

/-! ## Helper lemmas -/

/-- Every `withRetriesGo` run invokes the thunk at least once. -/
theorem withRetriesGo_calls_pos (f : ℕ → Except String α) (d i r : ℕ) :
    1 ≤ (withRetriesGo f d i r).calls := by
  rw [withRetriesGo]
  cases hf : f i with
  | ok a => simp
  | error e =>
    by_cases ht : isTransientMsg e
    · cases r with
      | zero => simp [ht]
      | succ r => simp [ht]
    · simp [ht]

/-- When every invocation from index `i` through `i + r` fails with a
transient error, the loop exhausts its budget: it makes `r + 1` calls,
sleeps the exponential delays in order, and ends with the error of the last
invocation. -/
theorem withRetriesGo_allTransient (f : ℕ → Except String α) (d : ℕ) :
    ∀ r i, (∀ k, k ≤ r → ∃ e, f (i + k) = .error e ∧ isTransientMsg e = true) →
    ∃ e, f (i + r) = .error e ∧
      withRetriesGo f d i r =
        ⟨.error e, (List.range (r + 1)).map (fun k => d * 2 ^ (i + k)),
         r + 1⟩ := by
  intro r
  induction r with
  | zero =>
    intro i h
    obtain ⟨e, he, ht⟩ := h 0 (Nat.le_refl 0)
    have he2 : f i = .error e := by simpa using he
    refine ⟨e, by simpa using he, ?_⟩
    rw [withRetriesGo]
    simp [he2, ht, List.range_succ]
  | succ r ih =>
    intro i h
    obtain ⟨e0, he0, ht0⟩ := h 0 (Nat.zero_le _)
    have he02 : f i = .error e0 := by simpa using he0
    have hsh : ∀ k, k ≤ r →
        ∃ e, f (i + 1 + k) = .error e ∧ isTransientMsg e = true := by
      intro k hk
      have harith : i + 1 + k = i + (k + 1) := by omega
      rw [harith]
      exact h (k + 1) (by omega)
    obtain ⟨e, he, hgo⟩ := ih (i + 1) hsh
    refine ⟨e, ?_, ?_⟩
    · have harith : i + (r + 1) = i + 1 + r := by omega
      rw [harith]; exact he
    · rw [withRetriesGo]
      simp only [he02, ht0, if_true, hgo]
      conv_rhs => rw [List.range_succ_eq_map, List.map_cons, List.map_map]
      simp only [Nat.add_zero]
      congr 1
      refine congrArg (List.cons (d * 2 ^ i)) (List.map_congr_left ?_)
      intro a _
      simp only [Function.comp_apply]
      have harith : i + 1 + a = i + (a + 1) := by omega
      rw [harith]

/-- Peeling a first delay off an exponential-delay list. -/
theorem range_pow_cons (d i m : ℕ) :
    d * 2 ^ i :: (List.range m).map (fun k => d * 2 ^ (i + 1 + k))
      = (List.range (m + 1)).map (fun k => d * 2 ^ (i + k)) := by
  conv_rhs => rw [List.range_succ_eq_map, List.map_cons, List.map_map]
  simp only [Nat.add_zero]
  refine congrArg (List.cons (d * 2 ^ i)) (List.map_congr_left ?_)
  intro a _
  simp only [Function.comp_apply]
  have harith : i + 1 + a = i + (a + 1) := by omega
  rw [harith]

/-- Skipping a transient prefix: when the `m` invocations from index `i`
on all fail with transient errors, the loop runs through them — sleeping
their exponential delays and making `m` calls — and continues from index
`i + m` with the remaining budget. -/
theorem withRetriesGo_transientPrefix (f : ℕ → Except String α) (d : ℕ) :
    ∀ m i r, m ≤ r →
    (∀ k, k < m → ∃ e, f (i + k) = .error e ∧ isTransientMsg e = true) →
    withRetriesGo f d i r =
      ⟨(withRetriesGo f d (i + m) (r - m)).result,
       ((List.range m).map (fun k => d * 2 ^ (i + k)))
         ++ (withRetriesGo f d (i + m) (r - m)).delays,
       m + (withRetriesGo f d (i + m) (r - m)).calls⟩ := by
  intro m
  induction m with
  | zero =>
    intro i r _ _
    simp
  | succ m ih =>
    intro i r hm h
    cases r with
    | zero => omega
    | succ r2 =>
      obtain ⟨e0, he0, ht0⟩ := h 0 (by omega)
      have he02 : f i = .error e0 := by simpa using he0
      have hsh : ∀ k, k < m →
          ∃ e, f (i + 1 + k) = .error e ∧ isTransientMsg e = true := by
        intro k hk
        have harith : i + 1 + k = i + (k + 1) := by omega
        rw [harith]
        exact h (k + 1) (by omega)
      have hstep := ih (i + 1) r2 (by omega) hsh
      rw [withRetriesGo]
      simp only [he02, ht0, if_true, hstep]
      have ha1 : i + 1 + m = i + (m + 1) := by omega
      have ha2 : r2 - m = r2 + 1 - (m + 1) := by omega
      rw [ha1, ha2]
      refine congrArg₂ (RetryTrace.mk _) ?_ (by omega)
      rw [← List.cons_append, range_pow_cons]

/-- A non-transient error at any reachable attempt stops the executor on
the spot: after a transient prefix of length `m` within the budget, a
non-transient failure of attempt `m` is propagated with exactly `m + 1`
calls made and only the delays of the preceding transient failures
slept. -/
theorem withRetries_stops_nontransient (f : ℕ → Except String α)
    (attempts d m : ℕ) (e : String) (hm : m ≤ attempts)
    (hpre : ∀ k, k < m → ∃ t, f k = .error t ∧ isTransientMsg t = true)
    (hfm : f m = .error e) (hnt : isTransientMsg e = false) :
    withRetries f attempts d
      = ⟨.error e, (List.range m).map (fun k => d * 2 ^ k), m + 1⟩ := by
  have hpre2 : ∀ k, k < m →
      ∃ t, f (0 + k) = .error t ∧ isTransientMsg t = true := by
    intro k hk
    simpa using hpre k hk
  rw [withRetries, withRetriesGo_transientPrefix f d m 0 attempts hm hpre2]
  have hstop : withRetriesGo f d (0 + m) (attempts - m)
      = ⟨.error e, [], 1⟩ := by
    rw [withRetriesGo]
    simp [Nat.zero_add, hfm, hnt]
  rw [hstop]
  simp

/-- A success at any reachable attempt likewise stops the executor with
`m + 1` calls and only the preceding delays. -/
theorem withRetries_stops_ok (f : ℕ → Except String α)
    (attempts d m : ℕ) (a : α) (hm : m ≤ attempts)
    (hpre : ∀ k, k < m → ∃ t, f k = .error t ∧ isTransientMsg t = true)
    (hfm : f m = .ok a) :
    withRetries f attempts d
      = ⟨.ok a, (List.range m).map (fun k => d * 2 ^ k), m + 1⟩ := by
  have hpre2 : ∀ k, k < m →
      ∃ t, f (0 + k) = .error t ∧ isTransientMsg t = true := by
    intro k hk
    simpa using hpre k hk
  rw [withRetries, withRetriesGo_transientPrefix f d m 0 attempts hm hpre2]
  have hstop : withRetriesGo f d (0 + m) (attempts - m) = ⟨.ok a, [], 1⟩ := by
    rw [withRetriesGo]
    simp [Nat.zero_add, hfm]
  rw [hstop]
  simp

/-- When `criarOperacao` answers `created`, the new store is the old one
with exactly the row `criarOperacaoRow` appended. -/
theorem criarOperacao_created (db : Db) (req : CriarOperacaoReq) (now i : ℕ)
    (st : String) (db2 : Db)
    (h : criarOperacao db req now = (.created i st, db2)) :
    db2 = { db with operacoes := db.operacoes ++ [criarOperacaoRow db req now]
                    nextOperacaoId := db.nextOperacaoId + 1 } ∧
    i = db.nextOperacaoId ∧ st = jsStrD req.status_operacao "rascunho" := by
  rw [criarOperacao] at h
  split at h
  · simp at h
  split at h
  · simp at h
  split at h
  · simp at h
  injection h with h1 h2
  injection h1 with hi hst
  exact ⟨h2.symm, hi.symm, hst.symm⟩

/-- The boolean normalizer only produces canonical values when its fallback
is canonical. -/
theorem normalizeBool_le_one (v : Option JVal) (fb : ℕ) (hfb : fb ≤ 1) :
    normalizeBool v fb ≤ 1 := by
  rcases v with _ | v
  · exact hfb
  rcases v with q | _ | s | b
  · rw [normalizeBool]
    split
    · omega
    split
    · omega
    · exact hfb
  · exact hfb
  · rw [normalizeBool]
    split
    · omega
    split
    · omega
    split
    · omega
    split
    · omega
    · exact hfb
  · rw [normalizeBool]
    split <;> omega

/-- The enum sanitization lands in the allow-list whenever the default is
in it. -/
theorem enumOrDefault_mem (allowed : List String) (v : Option String)
    (d : String) (hd : allowed.contains d = true) :
    allowed.contains (enumOrDefault allowed v d) = true := by
  rw [enumOrDefault]
  split
  · next hc => exact hc
  · exact hd

/-! ## Claim theorems -/

/-- C1: every successful promotion appends exactly one new Partner carrying
the data of the promoted Pre-Registration, removes that Pre-Registration
from the store, returns the generated plaintext temporary credential, and
that credential verifies — through the one-way credential primitive —
against the hash stored on the new Partner. -/
theorem c1_promotion_success
    (db : Db) (adminId preCadastroId : Option ℕ) (senhaTemp : String)
    (bcryptHash : String → String) (pid : ℕ) (sT : String) (db2 : Db)
    (h : adminTransformarParceiro db adminId preCadastroId senhaTemp bcryptHash
        = (.ok pid sT, db2)) :
    ∃ pc, db.preCadastros.find? (fun q => q.id = preCadastroId.getD 0)
        = some pc ∧
      sT = senhaTemp ∧ pid = db.nextParceiroId ∧
      db2.parceiros = db.parceiros ++
        [parceiroFromPre pc db.nextParceiroId senhaTemp bcryptHash] ∧
      db2.preCadastros
        = db.preCadastros.filter (fun q => q.id ≠ preCadastroId.getD 0) ∧
      (∀ q ∈ db2.preCadastros, q.id ≠ preCadastroId.getD 0) ∧
      (parceiroFromPre pc db.nextParceiroId senhaTemp bcryptHash).nome
        = pc.nome_completo.getD "" ∧
      (parceiroFromPre pc db.nextParceiroId senhaTemp bcryptHash).cpf
        = pc.cpf.getD "" ∧
      (parceiroFromPre pc db.nextParceiroId senhaTemp bcryptHash).email
        = pc.email.getD "" ∧
      bcryptVerify bcryptHash sT
        (parceiroFromPre pc db.nextParceiroId senhaTemp bcryptHash).senha
        = true := by
  rw [adminTransformarParceiro] at h
  split at h
  · simp at h
  split at h
  · simp at h
  split at h
  · simp at h
  next pc hfind =>
    split at h
    · simp at h
    split at h
    · simp at h
    next hnone =>
      injection h with hresp hdb
      injection hresp with hpid hst
      subst hpid
      subst hst
      subst hdb
      refine ⟨pc, hfind, rfl, rfl, rfl, rfl, ?_, rfl, rfl, rfl, ?_⟩
      · intro q hq
        simpa using (List.mem_filter.mp hq).2
      · simp [bcryptVerify, parceiroFromPre]

/-- C1 witness: the theorem applied to the concrete store `db0`. -/
theorem c1_promotion_success_witness :
    ∃ pc, db0.preCadastros.find?
        (fun q => q.id = (some 7 : Option ℕ).getD 0) = some pc ∧
      "pw123456" = "pw123456" ∧ (1 : ℕ) = db0.nextParceiroId ∧
      dbPromoted.parceiros = db0.parceiros ++
        [parceiroFromPre pc db0.nextParceiroId "pw123456" hash0] ∧
      dbPromoted.preCadastros = db0.preCadastros.filter
        (fun q => q.id ≠ (some 7 : Option ℕ).getD 0) ∧
      (∀ q ∈ dbPromoted.preCadastros, q.id ≠ (some 7 : Option ℕ).getD 0) ∧
      (parceiroFromPre pc db0.nextParceiroId "pw123456" hash0).nome
        = pc.nome_completo.getD "" ∧
      (parceiroFromPre pc db0.nextParceiroId "pw123456" hash0).cpf
        = pc.cpf.getD "" ∧
      (parceiroFromPre pc db0.nextParceiroId "pw123456" hash0).email
        = pc.email.getD "" ∧
      bcryptVerify hash0 "pw123456"
        (parceiroFromPre pc db0.nextParceiroId "pw123456" hash0).senha
        = true :=
  c1_promotion_success db0 (some 1) (some 7) "pw123456" hash0 1 "pw123456"
    dbPromoted (by decide)

/-- C2: when some existing Partner shares the cpf or email of the promoted
Pre-Registration, the promotion answers `Conflict` carrying the collided
field name and the identity of that Partner, and the store is left
completely unchanged. -/
theorem c2_promotion_conflict
    (db : Db) (adminId preCadastroId : Option ℕ) (senhaTemp : String)
    (bcryptHash : String → String) (pc : PreCadastro)
    (ha1 : jsTruthyNat adminId = true) (ha2 : jsTruthyNat preCadastroId = true)
    (ha3 : db.admins.contains (adminId.getD 0) = true)
    (hfind : db.preCadastros.find? (fun q => q.id = preCadastroId.getD 0)
        = some pc)
    (hm1 : jsTruthyStr pc.nome_completo = true)
    (hm2 : jsTruthyStr pc.cpf = true) (hm3 : jsTruthyStr pc.email = true)
    (hdup : ∃ p ∈ db.parceiros,
        p.cpf = pc.cpf.getD "" ∨ p.email = pc.email.getD "") :
    ∃ p ∈ db.parceiros,
      (p.cpf = pc.cpf.getD "" ∨ p.email = pc.email.getD "") ∧
      adminTransformarParceiro db adminId preCadastroId senhaTemp bcryptHash
        = (.conflict (if p.cpf = pc.cpf.getD "" then "cpf" else "email")
             p.id p.nome, db) ∧
      ((if p.cpf = pc.cpf.getD "" then "cpf" else "email") = "cpf" →
         p.cpf = pc.cpf.getD "") ∧
      ((if p.cpf = pc.cpf.getD "" then "cpf" else "email") = "email" →
         p.email = pc.email.getD "") := by
  have hex : ∃ x ∈ db.parceiros,
      (fun p => (decide (p.cpf = pc.cpf.getD "")
        || decide (p.email = pc.email.getD ""))) x = true := by
    obtain ⟨p, hp, hor⟩ := hdup
    refine ⟨p, hp, ?_⟩
    rcases hor with h | h <;> simp [h]
  have hsome : (db.parceiros.find? (fun p => (decide (p.cpf = pc.cpf.getD "")
      || decide (p.email = pc.email.getD "")))).isSome := by
    rw [List.find?_isSome]
    exact hex
  obtain ⟨p, hfp⟩ := Option.isSome_iff_exists.mp hsome
  have hpmem := List.mem_of_find?_eq_some hfp
  have hppred := List.find?_some hfp
  have hpor : p.cpf = pc.cpf.getD "" ∨ p.email = pc.email.getD "" := by
    simpa using hppred
  refine ⟨p, hpmem, hpor, ?_, ?_, ?_⟩
  · rw [adminTransformarParceiro]
    simp only [ha1, ha2, ha3, hfind, hm1, hm2, hm3, hfp]
    simp
  · intro hfield
    by_cases hc : p.cpf = pc.cpf.getD ""
    · exact hc
    · simp [hc] at hfield
  · intro hfield
    by_cases hc : p.cpf = pc.cpf.getD ""
    · simp [hc] at hfield
    · rcases hpor with h | h
      · exact absurd h hc
      · exact h

/-- C2 witness: the theorem applied to the concrete store `db1`, in which
`pExisting` shares the cpf of `pcSample`. -/
theorem c2_promotion_conflict_witness :
    ∃ p ∈ db1.parceiros,
      (p.cpf = pcSample.cpf.getD "" ∨ p.email = pcSample.email.getD "") ∧
      adminTransformarParceiro db1 (some 1) (some 7) "pw" hash0
        = (.conflict (if p.cpf = pcSample.cpf.getD "" then "cpf" else "email")
             p.id p.nome, db1) ∧
      ((if p.cpf = pcSample.cpf.getD "" then "cpf" else "email") = "cpf" →
         p.cpf = pcSample.cpf.getD "") ∧
      ((if p.cpf = pcSample.cpf.getD "" then "cpf" else "email") = "email" →
         p.email = pcSample.email.getD "") :=
  c2_promotion_conflict db1 (some 1) (some 7) "pw" hash0 pcSample
    (by decide) (by decide) (by decide) (by decide) (by decide) (by decide)
    (by decide) ⟨pExisting, by decide, Or.inl (by decide)⟩

/-- C3 counterexample: the claim states that a creation request whose cpf
already exists among existing Partners is rejected, but in the store `dbP`
the partner `pExisting` carries exactly the cpf of request `reqPC`, there
is no pre-registration, and the creation nevertheless answers `created` and
writes a row: the duplicate check of `preCadastro` consults only the
`pre_cadastros` table, never `parceiros`. -/
theorem c3_create_ignores_partners_counterexample :
    pExisting ∈ dbP.parceiros ∧ pExisting.cpf = jsStr reqPC.cpf ∧
    dbP.preCadastros = [] ∧
    (preCadastro dbP reqPC).1 = .created 1 "pre-aprovado" ∧
    (preCadastro dbP reqPC).2.preCadastros.length = 1 := by decide

/-- C3 as amended: a creation request carrying a tax id or business id that
already exists among Pre-Registrations (the only table the duplicate check
consults) fails with the permanent conflict answer and writes nothing. -/
theorem c3_create_conflict_amended (db : Db) (req : PreCadastroReq)
    (h1 : jsTruthyStr req.resp_tipo_cnpj = true)
    (h2 : jsTruthyStr req.resp_perfil_clientes = true)
    (h3 : jsTruthyStr req.resp_volume_indicacoes = true)
    (h4 : jsTruthyStr req.nome_completo = false ∨
        jsTrim (jsStr req.nome_completo) ≠ "")
    (h5 : jsTruthyStr req.email = false ∨
        emailRegexTest (jsStr req.email) = true)
    (h6 : jsTruthyStr req.cpf = true ∨ jsTruthyStr req.cnpj = true)
    (h7 : preCadastroDup db.preCadastros req.cpf req.cnpj = true) :
    preCadastro db req = (.dup, db) := by
  rcases h4 with h4 | h4 <;> rcases h5 with h5 | h5 <;>
    rcases h6 with h6 | h6 <;>
    simp [preCadastro, h1, h2, h3, h4, h5, h6, h7]

/-- C3 witness: the amended theorem applied to `db0`, whose single
pre-registration shares the cpf of `reqPC`. -/
theorem c3_create_conflict_amended_witness :
    preCadastro db0 reqPC = (.dup, db0) :=
  c3_create_conflict_amended db0 reqPC (by decide) (by decide) (by decide)
    (Or.inl (by decide)) (Or.inl (by decide)) (Or.inl (by decide)) (by decide)

/-- C4 counterexample: after the successful promotion that turned `db0`
into `dbPromoted` and answered with the plaintext credential `pw123456`,
both the admin partner-detail read and the admin partner-list read return
that same plaintext again in their `senha` column, so the credential is not
returned exactly once. -/
theorem c4_credential_retrievable_counterexample :
    (adminTransformarParceiro db0 (some 1) (some 7) "pw123456" hash0).1
        = .ok 1 "pw123456" ∧
    viewSenha (adminGetParceiro dbPromoted (some 1) (some 1) md5fb0)
        = some "pw123456" ∧
    listSenhas (adminListParceiros dbPromoted (some 1) md5fb0)
        = ["pw123456"] := by decide

/-- C4 as amended: the plaintext temporary credential is persisted in the
`senha_temp` column and remains retrievable after the promotion — any
partner whose `senha_temp` is set is returned by the admin partner-detail
read with that plaintext as its `senha` field. -/
theorem c4_credential_persistence_amended
    (db : Db) (adminId parceiroId : Option ℕ) (p : Parceiro)
    (md5fb : ℕ → String → String) (t : String)
    (ha1 : jsTruthyNat adminId = true) (ha2 : jsTruthyNat parceiroId = true)
    (ha3 : db.admins.contains (adminId.getD 0) = true)
    (hfind : db.parceiros.find? (fun q => q.id = parceiroId.getD 0) = some p)
    (ht : p.senha_temp = some t) :
    adminGetParceiro db adminId parceiroId md5fb
        = .found (parceiroView md5fb p) ∧
    (parceiroView md5fb p).senha = t := by
  have ha3m : adminId.getD 0 ∈ db.admins := by simpa using ha3
  constructor
  · rw [adminGetParceiro]
    simp [ha1, ha2, ha3m, hfind]
  · simp [parceiroView, ht]

/-- C4 witness: the amended theorem applied to the promoted store. -/
theorem c4_credential_persistence_amended_witness :
    adminGetParceiro dbPromoted (some 1) (some 1) md5fb0
        = .found (parceiroView md5fb0
            (parceiroFromPre pcSample 1 "pw123456" hash0)) ∧
    (parceiroView md5fb0 (parceiroFromPre pcSample 1 "pw123456" hash0)).senha
        = "pw123456" :=
  c4_credential_persistence_amended dbPromoted (some 1) (some 1)
    (parceiroFromPre pcSample 1 "pw123456" hash0) md5fb0 "pw123456"
    (by decide) (by decide) (by decide) (by decide) (by decide)

/-- C5: divergence between the source and the claim.  The source creates
the query promise and the timer once, outside the retry loop, so every
retried attempt re-awaits the same settled race (`queryWithTimeout`):
after a first transient rejection the executor makes three calls that all
observe the original failure and finally propagates it.  Under the claimed
per-attempt fresh race (`queryWithTimeoutFresh`) the same schedule — first
invocation fails transiently, a fresh second invocation succeeds — recovers
with the value.  The timer outcome `DB query timeout` is, moreover, not
classified transient. -/
theorem c5_stale_race_code_bug :
    queryWithTimeout (Except.error "read ETIMEDOUT" : Except String ℕ) 2 200
        = ⟨.error "read ETIMEDOUT", [200, 400, 800], 3⟩ ∧
    queryWithTimeoutFresh
        (fun i => if i = 0 then (Except.error "read ETIMEDOUT" : Except String ℕ)
         else .ok 42) 2 200
        = ⟨.ok 42, [200], 2⟩ ∧
    isTransientMsg "read ETIMEDOUT" = true ∧
    isTransientMsg "DB query timeout" = false := by
  refine ⟨by decide, by decide, by decide, by decide⟩

/-- C6: the executor retries exactly the transient-classified errors, on
every schedule.  After any transient prefix of `m` failed attempts within
the budget: a non-transient error of attempt `m` is propagated immediately
with zero further retries (`m + 1` calls, only the preceding delays
`initialDelay * 2 ^ 0, …, initialDelay * 2 ^ (m-1)` slept); a success
stops likewise; a run that is transient through the whole budget makes
`attempts + 1` calls, sleeps `initialDelay * 2 ^ 0, …,
initialDelay * 2 ^ attempts`, and propagates the last error; and a failed
attempt is followed by a further call precisely when its error is
transient and the budget allows a retry.  Together these pin the executor
down on every schedule: each run is classified by its first non-transient
error or success, or by exhausting a fully transient budget. -/
theorem c6_retry_classification {α : Type} :
    (∀ (f : ℕ → Except String α) (attempts initialDelay m : ℕ) (e : String),
       m ≤ attempts →
       (∀ k, k < m → ∃ t, f k = .error t ∧ isTransientMsg t = true) →
       f m = .error e → isTransientMsg e = false →
       withRetries f attempts initialDelay =
         ⟨.error e, (List.range m).map (fun k => initialDelay * 2 ^ k),
          m + 1⟩) ∧
    (∀ (f : ℕ → Except String α) (attempts initialDelay : ℕ),
       (∀ k, k ≤ attempts → ∃ e, f k = .error e ∧ isTransientMsg e = true) →
       ∃ e, f attempts = .error e ∧
         withRetries f attempts initialDelay =
           ⟨.error e,
            (List.range (attempts + 1)).map (fun k => initialDelay * 2 ^ k),
            attempts + 1⟩) ∧
    (∀ (f : ℕ → Except String α) (attempts initialDelay m : ℕ) (a : α),
       m ≤ attempts →
       (∀ k, k < m → ∃ t, f k = .error t ∧ isTransientMsg t = true) →
       f m = .ok a →
       withRetries f attempts initialDelay =
         ⟨.ok a, (List.range m).map (fun k => initialDelay * 2 ^ k),
          m + 1⟩) ∧
    (∀ (f : ℕ → Except String α) (attempts initialDelay m : ℕ) (e : String),
       m ≤ attempts →
       (∀ k, k < m → ∃ t, f k = .error t ∧ isTransientMsg t = true) →
       f m = .error e →
       (m + 2 ≤ (withRetries f attempts initialDelay).calls ↔
         (isTransientMsg e = true ∧ m < attempts))) := by
  refine ⟨withRetries_stops_nontransient, ?_, withRetries_stops_ok, ?_⟩
  · intro f a d h
    obtain ⟨e, he, hgo⟩ := withRetriesGo_allTransient f d a 0
      (by intro k hk; simpa using h k hk)
    refine ⟨e, by simpa using he, ?_⟩
    rw [withRetries, hgo]
    simp
  · intro f a d m e hm hpre hfm
    constructor
    · intro hcalls
      by_cases ht : isTransientMsg e = true
      · refine ⟨ht, ?_⟩
        by_contra hge
        have hma : m = a := by omega
        subst hma
        obtain ⟨e2, _, hgo⟩ := withRetriesGo_allTransient f d m 0 (by
          intro k hk
          rcases Nat.lt_or_ge k m with hlt | hge2
          · simpa using hpre k hlt
          · have hkm : k = m := by omega
            subst hkm
            exact ⟨e, by simpa using hfm, ht⟩)
        rw [withRetries, hgo] at hcalls
        simp at hcalls
      · have ht2 : isTransientMsg e = false := by
          cases hb : isTransientMsg e
          · rfl
          · exact absurd hb ht
        rw [withRetries_stops_nontransient f a d m e hm hpre hfm ht2]
          at hcalls
        simp at hcalls
    · rintro ⟨ht, hlt⟩
      have hpre2 : ∀ k, k < m + 1 →
          ∃ t, f (0 + k) = .error t ∧ isTransientMsg t = true := by
        intro k hk
        rcases Nat.lt_or_ge k m with hlt2 | hge2
        · simpa using hpre k hlt2
        · have hkm : k = m := by omega
          subst hkm
          exact ⟨e, by simpa using hfm, ht⟩
      rw [withRetries,
        withRetriesGo_transientPrefix f d (m + 1) 0 a (by omega) hpre2]
      have hp := withRetriesGo_calls_pos f d (0 + (m + 1)) (a - (m + 1))
      simp only [Nat.zero_add] at hp
      simp
      omega

/-- C6 witness: a mixed schedule — a transient connection reset followed
by a permanent duplicate-key error — stops after the second call with one
delay, and a fully transient run spends the whole budget with doubling
delays. -/
theorem c6_retry_classification_witness :
    withRetries
        (fun i => if i = 0 then (Except.error "ECONNRESET" : Except String ℕ)
         else .error "ER_DUP_ENTRY") 3 100
      = ⟨.error "ER_DUP_ENTRY", [100], 2⟩ ∧
    withRetries (fun _ => (Except.error "ECONNRESET" : Except String ℕ)) 1 100
      = ⟨.error "ECONNRESET", [100, 200], 2⟩ := by
  constructor
  · have h := c6_retry_classification.1
      (fun i => if i = 0 then (Except.error "ECONNRESET" : Except String ℕ)
       else .error "ER_DUP_ENTRY") 3 100 1 "ER_DUP_ENTRY" (by omega)
      (fun k hk => ⟨"ECONNRESET", by
        have hk0 : k = 0 := by omega
        subst hk0
        rfl, by decide⟩)
      rfl (by decide)
    rw [h]
    decide
  · obtain ⟨e, he, hgo⟩ := c6_retry_classification.2.1
      (fun _ => (Except.error "ECONNRESET" : Except String ℕ)) 1 100
      (fun k _ => ⟨"ECONNRESET", rfl, by decide⟩)
    have he2 : e = "ECONNRESET" := by
      simpa using he.symm
    subst he2
    rw [hgo]
    decide

/-- C8: the status-update endpoint never introduces the status `aprovado`:
every row of the resulting store is either an unchanged original row or a
row whose status was set to `reprovado`; and any requested status other
than `reprovado` is rejected with a validation error, the store left
unchanged. -/
theorem c8_no_direct_approval (db : Db) (adminId preCadastroId : Option ℕ)
    (status : Option String) :
    (∀ pc ∈ (adminUpdatePreCadastroStatus db adminId preCadastroId
        status).2.preCadastros,
       pc ∈ db.preCadastros ∨ pc.status_elegibilidade = "reprovado") ∧
    (∀ s, status = some s → s ≠ "reprovado" →
       adminUpdatePreCadastroStatus db adminId preCadastroId status
           = (.invalidStatus, db) ∨
       adminUpdatePreCadastroStatus db adminId preCadastroId status
           = (.missing, db)) := by
  constructor
  · intro pc hpc
    rw [adminUpdatePreCadastroStatus] at hpc
    split at hpc
    · exact Or.inl hpc
    split at hpc
    · exact Or.inl hpc
    split at hpc
    · exact Or.inl hpc
    split at hpc
    · exact Or.inl hpc
    next hg hallow ha hex =>
      simp only at hpc
      obtain ⟨pc0, hmem0, heq⟩ := List.mem_map.mp hpc
      by_cases hid : pc0.id = preCadastroId.getD 0
      · right
        have hall : ["reprovado"].contains (jsStr status) = true := by
          simpa using hallow
        have hst : jsStr status = "reprovado" := by
          simpa using hall
        rw [← heq]
        simp [hid, hst]
      · left
        rw [← heq]
        simp [hid]
        exact hmem0
  · intro s hs hne
    subst hs
    rw [adminUpdatePreCadastroStatus]
    by_cases hg : (!(jsTruthyNat adminId) || !(jsTruthyNat preCadastroId)
        || !(jsTruthyStr (some s))) = true
    · right
      simp [hg]
    · left
      simp only [Bool.or_eq_true, Bool.not_eq_true'] at hg
      push_neg at hg
      simp [hg, hne, jsStr]

/-- C8 witness: asking the status-update endpoint of `db0` for `aprovado`
is rejected and changes nothing. -/
theorem c8_no_direct_approval_witness :
    adminUpdatePreCadastroStatus db0 (some 1) (some 7) (some "aprovado")
        = (.invalidStatus, db0) ∨
    adminUpdatePreCadastroStatus db0 (some 1) (some 7) (some "aprovado")
        = (.missing, db0) :=
  (c8_no_direct_approval db0 (some 1) (some 7) (some "aprovado")).2
    "aprovado" rfl (by decide)

/-- C7 as amended: on creation every write of the inserted row is produced
by the normalizers — the sanitized enumerated fields (operation type,
property type, property situation, restrictions) land in their allow-lists
or their declared defaults, the boolean fields are canonical, and every
monetary field holds a numeric value (the fallback when unparseable),
though that value may be negative and the status field is stored as
requested; on a partial update every field absent from the request is left
untouched and a present boolean field is stored canonically, while present
monetary, enumerated and status fields bypass the Field Normalizer. -/
theorem c7_field_normalization_amended :
    (∀ (db : Db) (req : CriarOperacaoReq) (now i : ℕ) (st : String) (db2 : Db),
       criarOperacao db req now = (.created i st, db2) →
       db2.operacoes = db.operacoes ++ [criarOperacaoRow db req now] ∧
       allowedTipoOperacao.contains (criarOperacaoRow db req now).tipo_operacao
           = true ∧
       allowedImovelTipo.contains (criarOperacaoRow db req now).imovel_tipo
           = true ∧
       allowedImovelSituacao.contains
           (criarOperacaoRow db req now).imovel_situacao = true ∧
       ((criarOperacaoRow db req now).cliente_restricoes = none ∨
         ∃ c, (criarOperacaoRow db req now).cliente_restricoes = some c ∧
           allowedRestricoes.contains c = true) ∧
       (criarOperacaoRow db req now).cliente_casado ≤ 1 ∧
       (criarOperacaoRow db req now).aceite_lgpd ≤ 1 ∧
       (criarOperacaoRow db req now).aceite_declaracao ≤ 1 ∧
       ((criarOperacaoRow db req now).imovel_valor_estimado).isSome = true ∧
       ((criarOperacaoRow db req now).operacao_valor_imovel).isSome = true ∧
       ((criarOperacaoRow db req now).operacao_valor_pretendido).isSome
           = true) ∧
    (∀ (op : Operacao) (u : AtualizarOperacaoReq) (now : ℕ),
       (u.tipo_operacao = none →
           (applyUpdate op u now).tipo_operacao = op.tipo_operacao) ∧
       (u.cliente_nome_completo = none →
           (applyUpdate op u now).cliente_nome_completo = op.cliente_nome_completo) ∧
       (u.cliente_cpf = none →
           (applyUpdate op u now).cliente_cpf = op.cliente_cpf) ∧
       (u.cliente_telefone = none →
           (applyUpdate op u now).cliente_telefone = op.cliente_telefone) ∧
       (u.cliente_email = none →
           (applyUpdate op u now).cliente_email = op.cliente_email) ∧
       (u.cliente_cep = none →
           (applyUpdate op u now).cliente_cep = op.cliente_cep) ∧
       (u.cliente_endereco = none →
           (applyUpdate op u now).cliente_endereco = op.cliente_endereco) ∧
       (u.cliente_renda_faixa = none →
           (applyUpdate op u now).cliente_renda_faixa = op.cliente_renda_faixa) ∧
       (u.cliente_profissao = none →
           (applyUpdate op u now).cliente_profissao = op.cliente_profissao) ∧
       (u.cliente_restricoes = none →
           (applyUpdate op u now).cliente_restricoes = op.cliente_restricoes) ∧
       (u.cliente_casado = none →
           (applyUpdate op u now).cliente_casado = op.cliente_casado) ∧
       (u.cliente_conjuge_nome = none →
           (applyUpdate op u now).cliente_conjuge_nome = op.cliente_conjuge_nome) ∧
       (u.cliente_conjuge_cpf = none →
           (applyUpdate op u now).cliente_conjuge_cpf = op.cliente_conjuge_cpf) ∧
       (u.imovel_tipo = none →
           (applyUpdate op u now).imovel_tipo = op.imovel_tipo) ∧
       (u.imovel_cidade = none →
           (applyUpdate op u now).imovel_cidade = op.imovel_cidade) ∧
       (u.imovel_uf = none →
           (applyUpdate op u now).imovel_uf = op.imovel_uf) ∧
       (u.imovel_endereco_completo = none →
           (applyUpdate op u now).imovel_endereco_completo = op.imovel_endereco_completo) ∧
       (u.imovel_valor_estimado = none →
           (applyUpdate op u now).imovel_valor_estimado = op.imovel_valor_estimado) ∧
       (u.imovel_situacao = none →
           (applyUpdate op u now).imovel_situacao = op.imovel_situacao) ∧
       (u.imovel_titular = none →
           (applyUpdate op u now).imovel_titular = op.imovel_titular) ∧
       (u.operacao_valor_imovel = none →
           (applyUpdate op u now).operacao_valor_imovel = op.operacao_valor_imovel) ∧
       (u.operacao_valor_pretendido = none →
           (applyUpdate op u now).operacao_valor_pretendido = op.operacao_valor_pretendido) ∧
       (u.operacao_finalidade = none →
           (applyUpdate op u now).operacao_finalidade = op.operacao_finalidade) ∧
       (u.operacao_prazo_desejado = none →
           (applyUpdate op u now).operacao_prazo_desejado = op.operacao_prazo_desejado) ∧
       (u.docs_cliente_rg_cnh = none →
           (applyUpdate op u now).docs_cliente_rg_cnh = op.docs_cliente_rg_cnh) ∧
       (u.docs_cliente_cpf = none →
           (applyUpdate op u now).docs_cliente_cpf = op.docs_cliente_cpf) ∧
       (u.docs_cliente_renda = none →
           (applyUpdate op u now).docs_cliente_renda = op.docs_cliente_renda) ∧
       (u.docs_cliente_residencia = none →
           (applyUpdate op u now).docs_cliente_residencia = op.docs_cliente_residencia) ∧
       (u.docs_cliente_extratos = none →
           (applyUpdate op u now).docs_cliente_extratos = op.docs_cliente_extratos) ∧
       (u.docs_cliente_conjuge = none →
           (applyUpdate op u now).docs_cliente_conjuge = op.docs_cliente_conjuge) ∧
       (u.docs_imovel_matricula = none →
           (applyUpdate op u now).docs_imovel_matricula = op.docs_imovel_matricula) ∧
       (u.docs_imovel_iptu = none →
           (applyUpdate op u now).docs_imovel_iptu = op.docs_imovel_iptu) ∧
       (u.docs_imovel_escritura = none →
           (applyUpdate op u now).docs_imovel_escritura = op.docs_imovel_escritura) ∧
       (u.docs_imovel_fotos = none →
           (applyUpdate op u now).docs_imovel_fotos = op.docs_imovel_fotos) ∧
       (u.docs_outros = none →
           (applyUpdate op u now).docs_outros = op.docs_outros) ∧
       (u.status_operacao = none →
           (applyUpdate op u now).status_operacao = op.status_operacao) ∧
       (u.aceite_lgpd = none →
           (applyUpdate op u now).aceite_lgpd = op.aceite_lgpd) ∧
       (u.aceite_declaracao = none →
           (applyUpdate op u now).aceite_declaracao = op.aceite_declaracao) ∧
       (u.status_operacao = none →
           (applyUpdate op u now).enviado_em = op.enviado_em) ∧
       (∀ v, u.cliente_casado = some v →
           (applyUpdate op u now).cliente_casado ≤ 1) ∧
       (∀ v, u.aceite_lgpd = some v →
           (applyUpdate op u now).aceite_lgpd ≤ 1) ∧
       (∀ v, u.aceite_declaracao = some v →
           (applyUpdate op u now).aceite_declaracao ≤ 1)) := by
  constructor
  · intro db req now i st db2 h
    obtain ⟨hdb, _, _⟩ := criarOperacao_created db req now i st db2 h
    refine ⟨by rw [hdb], enumOrDefault_mem _ _ _ (by decide),
      enumOrDefault_mem _ _ _ (by decide), enumOrDefault_mem _ _ _ (by decide),
      ?_, normalizeBool_le_one _ 0 (by decide),
      normalizeBool_le_one _ 0 (by decide),
      normalizeBool_le_one _ 0 (by decide), rfl, rfl, rfl⟩
    show (if allowedRestricoes.contains (jsLower (jsStr req.cliente_restricoes))
        then some (jsLower (jsStr req.cliente_restricoes)) else none) = none ∨ _
    by_cases hc : allowedRestricoes.contains
        (jsLower (jsStr req.cliente_restricoes)) = true
    · right
      exact ⟨jsLower (jsStr req.cliente_restricoes), if_pos hc, hc⟩
    · left
      exact if_neg hc
  · intro op u now
    refine ⟨
      fun h => by simp [applyUpdate, h],
      fun h => by simp [applyUpdate, h],
      fun h => by simp [applyUpdate, h],
      fun h => by simp [applyUpdate, h],
      fun h => by simp [applyUpdate, h],
      fun h => by simp [applyUpdate, h],
      fun h => by simp [applyUpdate, h],
      fun h => by simp [applyUpdate, h],
      fun h => by simp [applyUpdate, h],
      fun h => by simp [applyUpdate, h],
      fun h => by simp [applyUpdate, h],
      fun h => by simp [applyUpdate, h],
      fun h => by simp [applyUpdate, h],
      fun h => by simp [applyUpdate, h],
      fun h => by simp [applyUpdate, h],
      fun h => by simp [applyUpdate, h],
      fun h => by simp [applyUpdate, h],
      fun h => by simp [applyUpdate, h],
      fun h => by simp [applyUpdate, h],
      fun h => by simp [applyUpdate, h],
      fun h => by simp [applyUpdate, h],
      fun h => by simp [applyUpdate, h],
      fun h => by simp [applyUpdate, h],
      fun h => by simp [applyUpdate, h],
      fun h => by simp [applyUpdate, h],
      fun h => by simp [applyUpdate, h],
      fun h => by simp [applyUpdate, h],
      fun h => by simp [applyUpdate, h],
      fun h => by simp [applyUpdate, h],
      fun h => by simp [applyUpdate, h],
      fun h => by simp [applyUpdate, h],
      fun h => by simp [applyUpdate, h],
      fun h => by simp [applyUpdate, h],
      fun h => by simp [applyUpdate, h],
      fun h => by simp [applyUpdate, h],
      fun h => by simp [applyUpdate, h],
      fun h => by simp [applyUpdate, h],
      fun h => by simp [applyUpdate, h],
      fun h => by simp [applyUpdate, h],
      fun v h => by simp only [applyUpdate, h]; split <;> omega,
      fun v h => by simp only [applyUpdate, h]; split <;> omega,
      fun v h => by simp only [applyUpdate, h]; split <;> omega⟩

/-- C7 counterexample: the claim states that after any create or update
every stored monetary field is non-negative and every enumerated field
(including the status) is in its allow-list or default.  Creating with
`reqOpNeg` stores the negative monetary value `-5` and the out-of-
enumeration status `garbage`; updating with `updNeg` — whose monetary field
goes through a bare `parseFloat` and whose status is written unvalidated —
stores `-7` and the status `weird`. -/
theorem c7_normalization_counterexample :
    ((criarOperacao dbP reqOpNeg 0).2.operacoes.map
        (fun o => o.imovel_valor_estimado)) = [some (-5)] ∧
    ((-5 : ℚ) < 0) ∧
    ((criarOperacao dbP reqOpNeg 0).2.operacoes.map
        (fun o => o.status_operacao)) = ["garbage"] ∧
    allowedStatusOperacao.contains "garbage" = false ∧
    (atualizarOperacao dbOps updNeg 5).1 = .ok ∧
    ((atualizarOperacao dbOps updNeg 5).2.operacoes.map
        (fun o => o.operacao_valor_pretendido)) = [some (-7)] ∧
    ((atualizarOperacao dbOps updNeg 5).2.operacoes.map
        (fun o => o.status_operacao)) = ["weird"] ∧
    allowedStatusOperacao.contains "weird" = false := by
  refine ⟨by decide, by norm_num, by decide, by decide, by decide, by decide,
    by decide, by decide⟩

/-- C7 witness: the create half of the amended theorem applied to the
concrete creation of `reqOp1` in `dbP`. -/
theorem c7_field_normalization_amended_witness :
    dbOps.operacoes = dbP.operacoes ++ [criarOperacaoRow dbP reqOp1 0] ∧
    allowedTipoOperacao.contains (criarOperacaoRow dbP reqOp1 0).tipo_operacao
        = true ∧
    allowedImovelTipo.contains (criarOperacaoRow dbP reqOp1 0).imovel_tipo
        = true ∧
    allowedImovelSituacao.contains
        (criarOperacaoRow dbP reqOp1 0).imovel_situacao = true ∧
    ((criarOperacaoRow dbP reqOp1 0).cliente_restricoes = none ∨
      ∃ c, (criarOperacaoRow dbP reqOp1 0).cliente_restricoes = some c ∧
        allowedRestricoes.contains c = true) ∧
    (criarOperacaoRow dbP reqOp1 0).cliente_casado ≤ 1 ∧
    (criarOperacaoRow dbP reqOp1 0).aceite_lgpd ≤ 1 ∧
    (criarOperacaoRow dbP reqOp1 0).aceite_declaracao ≤ 1 ∧
    ((criarOperacaoRow dbP reqOp1 0).imovel_valor_estimado).isSome = true ∧
    ((criarOperacaoRow dbP reqOp1 0).operacao_valor_imovel).isSome = true ∧
    ((criarOperacaoRow dbP reqOp1 0).operacao_valor_pretendido).isSome
        = true :=
  c7_field_normalization_amended.1 dbP reqOp1 0 1 "rascunho" dbOps (by decide)

/-- C9: the money normalizer passes finite numbers through, turns the
locale-formatted string `R$ 1.234,56` into the numeric value `1234.56` —
treating the comma as the decimal separator and the dot as a thousands
separator to strip — parses a dot-decimal string directly, and returns the
caller-supplied fallback for `null`, non-finite numbers, the empty or blank
string, and any string whose parse is not a number. -/
theorem c9_normalizeMoney (fb : ℚ) :
    normalizeMoney (some (.str "R$ 1.234,56")) fb = 123456 / 100 ∧
    (∀ q : ℚ, normalizeMoney (some (.num q)) fb = q) ∧
    normalizeMoney (some .nan) fb = fb ∧
    normalizeMoney none fb = fb ∧
    normalizeMoney (some (.str "")) fb = fb ∧
    normalizeMoney (some (.str "   ")) fb = fb ∧
    normalizeMoney (some (.str "abc")) fb = fb ∧
    normalizeMoney (some (.str "1.234,56")) fb = 123456 / 100 ∧
    normalizeMoney (some (.str "1234.56")) fb = 123456 / 100 := by
  refine ⟨?_, fun q => rfl, rfl, rfl, rfl, rfl, rfl, ?_, ?_⟩
  · have h : normalizeMoney (some (.str "R$ 1.234,56")) fb
        = ((1234 : ℕ) : ℚ) + ((56 : ℕ) : ℚ) / (10 : ℚ) ^ (2 : ℕ) := rfl
    rw [h]; norm_num
  · have h : normalizeMoney (some (.str "1.234,56")) fb
        = ((1234 : ℕ) : ℚ) + ((56 : ℕ) : ℚ) / (10 : ℚ) ^ (2 : ℕ) := rfl
    rw [h]; norm_num
  · have h : normalizeMoney (some (.str "1234.56")) fb
        = ((1234 : ℕ) : ℚ) + ((56 : ℕ) : ℚ) / (10 : ℚ) ^ (2 : ℕ) := rfl
    rw [h]; norm_num

/-- C10: every successful creation stores the three monetary fields as
`normalizeMoney` of the request value with the fixed fallbacks `100000`,
`100000` and `50000`; the normalizer returns that fallback for an absent,
empty or unparseable value, and the fallbacks are non-zero non-null
numbers. -/
theorem c10_money_defaults (db : Db) (req : CriarOperacaoReq) (now i : ℕ)
    (st : String) (db2 : Db)
    (h : criarOperacao db req now = (.created i st, db2)) :
    db2.operacoes = db.operacoes ++ [criarOperacaoRow db req now] ∧
    (criarOperacaoRow db req now).imovel_valor_estimado
        = some (normalizeMoney req.imovel_valor_estimado 100000) ∧
    (criarOperacaoRow db req now).operacao_valor_imovel
        = some (normalizeMoney req.operacao_valor_imovel 100000) ∧
    (criarOperacaoRow db req now).operacao_valor_pretendido
        = some (normalizeMoney req.operacao_valor_pretendido 50000) ∧
    (∀ (v : Option JVal) (fb : ℚ), v = none ∨ v = some (.str "") →
        normalizeMoney v fb = fb) ∧
    (∀ fb : ℚ, normalizeMoney (some (.str "abc")) fb = fb) ∧
    (100000 : ℚ) ≠ 0 ∧ (50000 : ℚ) ≠ 0 := by
  obtain ⟨hdb, _, _⟩ := criarOperacao_created db req now i st db2 h
  refine ⟨by rw [hdb], rfl, rfl, rfl, ?_, fun fb => rfl, by norm_num,
    by norm_num⟩
  rintro v fb (rfl | rfl) <;> rfl

/-- C10 witness: the theorem applied to the creation of `reqOp1`, whose
monetary fields are all absent, in `dbP`. -/
theorem c10_money_defaults_witness :
    dbOps.operacoes = dbP.operacoes ++ [criarOperacaoRow dbP reqOp1 0] ∧
    (criarOperacaoRow dbP reqOp1 0).imovel_valor_estimado
        = some (normalizeMoney reqOp1.imovel_valor_estimado 100000) ∧
    (criarOperacaoRow dbP reqOp1 0).operacao_valor_imovel
        = some (normalizeMoney reqOp1.operacao_valor_imovel 100000) ∧
    (criarOperacaoRow dbP reqOp1 0).operacao_valor_pretendido
        = some (normalizeMoney reqOp1.operacao_valor_pretendido 50000) ∧
    (∀ (v : Option JVal) (fb : ℚ), v = none ∨ v = some (.str "") →
        normalizeMoney v fb = fb) ∧
    (∀ fb : ℚ, normalizeMoney (some (.str "abc")) fb = fb) ∧
    (100000 : ℚ) ≠ 0 ∧ (50000 : ℚ) ≠ 0 :=
  c10_money_defaults dbP reqOp1 0 1 "rascunho" dbOps (by decide)

end Credon
